import Mathlib

/-!
Verification development for the UnQTube video-generation pipeline.

This file gives a shallow embedding, in Lean 4, of the pipeline-orchestration
and retry/recovery subsystem of the repository:

* `lib/config_utils.py` — rate limiting (`intelligent_rate_limit_handling`,
  `should_throttle_request`, `handle_rate_limit_hit`) and the on-disk
  `CacheManager`;
* `lib/gemini_api.py` / `lib/claude_api.py` — the HTTP retry loops of
  `generate_script_with_gemini` and `generate_script_with_claude`;
* `lib/content_generation.py` — the `PromptChain` content chain
  (`execute_chain` and its steps), including the JSON-repair and
  heuristic-extraction fallbacks and `_compile_final_output`;
* `lib/async_core.py` — `AsyncVideoGenerator` segment processing
  (`_process_item`, `_get_images`, `_create_fallback_image`) and the
  orchestration in `generate_video` / `_merge_video`.

Modelling conventions:

* Wall-clock times, backoff durations and jitter factors are rationals (`ℚ`);
  calls to `random.uniform(a, b)` are modelled by an explicit parameter that a
  theorem's hypotheses constrain to the interval `[a, b]`.
* The text-generation service (`PromptChain._generate_content`, which wraps the
  Gemini/Claude backends with mutual fallback) is an external collaborator; it
  is modelled as a function `ℕ → Except Unit String` giving the outcome of the
  n-th generation call (`.error` models the composite call raising).
* Python's `json.loads` is an external stdlib routine; it is modelled as an
  abstract deterministic parameter `jp : String → Option J` into the JSON value
  type `J` below (`none` models `json.JSONDecodeError`).  `json.dumps` composed
  with a later `json.loads` round-trips, so a step that stores
  `json.dumps(value)` and a consumer that re-parses it are modelled as passing
  the structured value directly.
* The concrete regular expressions used by the source are implemented as
  explicit string functions (`braceExtract`, `pyFixJson`, `arr1Match`,
  `arr2Match`, `findallQuotes`, `numberedTerm`) that mirror the semantics of
  the specific patterns on the inputs the code feeds them.
* The filesystem is a map `String → Option FileData`; collaborators missing
  from the sources (`lib/image_procces.py`, `lib/voices.py` internals,
  `lib/video_editor.mergevideo`) are treated as opaque services per the spec.
-/

namespace UnQTube

/-! ## JSON values

`J` models the Python values produced by `json.loads`: `null`, booleans,
integers, strings, lists and string-keyed dicts (the repository's prompts and
fallbacks only ever produce integer numbers, so floats are not modelled). -/

inductive J : Type
  | null : J
  | jb : Bool → J
  | jn : Int → J
  | js : String → J
  | arr : List J → J
  | obj : List (String × J) → J

namespace J

/-- Association-list lookup for a JSON object, first binding wins
(mirrors Python dict lookup for the literal objects the code builds). -/
def lookup (kvs : List (String × J)) (k : String) : Option J :=
  match kvs with
  | [] => none
  | (k', v) :: rest => if k' = k then some v else lookup rest k

/-- Python truth-value test (`bool(x)`) on a JSON value: `None`, `False`,
`0`, `""`, `[]` and `{}` are falsy, everything else truthy. -/
def falsy : J → Bool
  | null => true
  | jb b => !b
  | jn n => n = 0
  | js s => s = ""
  | arr l => l.isEmpty
  | obj l => l.isEmpty

def isArr : J → Bool
  | arr _ => true
  | _ => false

def arrElems : J → List J
  | arr l => l
  | _ => []

/-- Python `d.get(key, default)` on a JSON value; raises `AttributeError`
(modelled as `.error ()`) when the value is not a dict. -/
def getD : J → String → J → Except Unit J
  | obj kvs, k, d => .ok ((lookup kvs k).getD d)
  | _, _, _ => .error ()

/-- Substring test on character lists (Python `needle in hay`). -/
def charSub (needle : List Char) : List Char → Bool
  | [] => needle.isEmpty
  | c :: t => needle.isPrefixOf (c :: t) || charSub needle t

/-- Python `key in x` for a string `key`: key lookup for dicts, membership
for lists (a string needle equals only string elements), substring test for
strings; `TypeError` (modelled as `.error ()`) otherwise. -/
def containsKey (x : J) (k : String) : Except Unit Bool :=
  match x with
  | obj kvs => .ok ((lookup kvs k).isSome)
  | arr l => .ok (l.any fun e => match e with
      | js s => s = k
      | _ => false)
  | js s => .ok (charSub k.toList s.toList)
  | _ => .error ()

/-- Python `x[key]` for a string `key`: dict indexing (`KeyError` when
missing), `TypeError` for every non-dict value. -/
def indexKey (x : J) (k : String) : Except Unit J :=
  match x with
  | obj kvs => match lookup kvs k with
    | some v => .ok v
    | none => .error ()
  | _ => .error ()

/-- Python `<` on the value shapes `sorted` can meet as rank keys: ints and
bools compare as ints, strings lexicographically; every other pairing —
including `None` and dicts, which Python cannot order — is a `TypeError`
(`.error ()`).  (Python additionally orders two lists elementwise; no
validated, extracted or fallback outline ever carries a list-valued rank, and
no claim touches one, so that exotic case is conservatively folded into the
failure branch.) -/
def pyLt : J → J → Except Unit Bool
  | jn a, jn b => .ok (a < b)
  | jb a, jn b => .ok ((if a then (1 : Int) else 0) < b)
  | jn a, jb b => .ok (a < (if b then (1 : Int) else 0))
  | jb a, jb b => .ok ((if a then (1 : Int) else 0) < (if b then 1 else 0))
  | js a, js b => .ok (decide (a < b))
  | _, _ => .error ()

end J

/-! ## String helpers mirroring the Python primitives used by the chain -/

/-- `needle in hay` for Python strings (substring containment). -/
def strContains (hay needle : String) : Bool :=
  J.charSub needle.toList hay.toList

/-- Python `line[:5]`. -/
def take5 (s : String) : String :=
  String.mk (s.toList.take 5)

/-- Python `s.split(sep, 1)[1]` — everything after the first occurrence of
the (single-character) separator; only used under a `sep in s` guard. -/
def afterFirst (s : String) (c : Char) : String :=
  String.mk ((s.toList.dropWhile (· ≠ c)).drop 1)

/-- Python `s.split(sep, 1)[0]`. -/
def beforeFirst (s : String) (c : Char) : String :=
  String.mk (s.toList.takeWhile (· ≠ c))

/-- Python whitespace class membership. -/
def isPySpaceC (c : Char) : Bool := c.isWhitespace

/-- Python `s.strip()`. -/
def pyStrip (s : String) : String :=
  String.mk (((s.toList.dropWhile isPySpaceC).reverse.dropWhile isPySpaceC).reverse)

/-- Python `s.lower()` on the ASCII inputs involved. -/
def pyLower (s : String) : String :=
  String.mk (s.toList.map Char.toLower)

/-- Python `s.startswith(pre)`. -/
def pyStarts (s pre : String) : Bool :=
  pre.toList.isPrefixOf s.toList

/-- Helper for `pyLines`, with the list length as structural fuel. -/
def pyLinesGo : ℕ → List Char → List String
  | 0, cs => [String.mk cs]
  | fuel + 1, cs =>
    let pre := cs.takeWhile (· ≠ '\n')
    match cs.dropWhile (· ≠ '\n') with
    | [] => [String.mk pre]
    | _ :: tail => String.mk pre :: pyLinesGo fuel tail

/-- Python `s.split('\n')`. -/
def pyLines (s : String) : List String :=
  pyLinesGo s.toList.length s.toList

/-! ## Rate limiter (`lib/config_utils.py`, lines 21–279)

The module-level `_rate_limit_state` dict is modelled as an association list
from service name to per-service state, so that "no entry is ever created for
an unknown service" is expressible.  All times are rationals; `time.sleep` has
no effect on the modelled state, so it appears only through the returned sleep
duration. -/

structure SvcState where
  last_request_time : ℚ
  backoff_time : ℚ
  max_backoff : ℚ
  requests_count : ℕ
  rate_limit_hit : Bool
deriving Repr, DecidableEq

/-- The rate-limit table: keys are service names.  Mirrors the module-level
`_rate_limit_state` dict. -/
def RLState := List (String × SvcState)

/-- Initial `_rate_limit_state`: `gemini_api` (cap 30 s) and `pexels_api`
(cap 15 s), both with initial backoff 0.5 s. -/
def initRLState : RLState :=
  [("gemini_api", ⟨0, 1/2, 30, 0, false⟩), ("pexels_api", ⟨0, 1/2, 15, 0, false⟩)]

/-- Dict lookup `_rate_limit_state[api_type]`. -/
def rlLookup (st : RLState) (api : String) : Option SvcState :=
  match st with
  | [] => none
  | (k, v) :: rest => if k = api then some v else rlLookup rest api

/-- In-place mutation of one entry (`state = _rate_limit_state[api]; state[...] = ...`).
Only existing keys are ever updated; no key is created. -/
def rlUpdate (st : RLState) (api : String) (f : SvcState → SvcState) : RLState :=
  match st with
  | [] => []
  | (k, v) :: rest => if k = api then (k, f v) :: rest else (k, v) :: rlUpdate rest api f

/-- `intelligent_rate_limit_handling(retry_after, api_type)` (lines 133–184).

Returns the sleep duration actually used and the updated table.  The three
jitter parameters model the `random.uniform` draws on the three paths:
`jNone ∈ [1,3]` (no api_type and no retry_after), `jRA ∈ [0.9,1.1]`
(retry-after given), `jExp ∈ [0.8,1.2]` (exponential path).  A `retry_after`
of `some 0` is falsy in Python and treated like `none`. -/
def intelligent_rate_limit_handling (retry_after : Option ℚ) (api_type : Option String)
    (jNone jRA jExp : ℚ) (st : RLState) : ℚ × RLState :=
  match api_type with
  | none =>
    let sleep := match retry_after with
      | some r => if r ≠ 0 then r else jNone
      | none => jNone
    (sleep, st)
  | some api =>
    match rlLookup st api with
    | none =>
      let sleep := match retry_after with
        | some r => if r ≠ 0 then r else 1
        | none => 1
      (sleep, st)
    | some s =>
      match retry_after with
      | some r =>
        if r ≠ 0 then
          let sleep := r * jRA
          (sleep, rlUpdate st api fun s0 =>
            { s0 with rate_limit_hit := true, backoff_time := min r s.max_backoff })
        else
          let b := min (s.backoff_time * 2) s.max_backoff
          (b * jExp, rlUpdate st api fun s0 =>
            { s0 with rate_limit_hit := true, backoff_time := b })
      | none =>
        let b := min (s.backoff_time * 2) s.max_backoff
        (b * jExp, rlUpdate st api fun s0 =>
          { s0 with rate_limit_hit := true, backoff_time := b })

/-- `should_throttle_request(api_type)` (lines 186–227).  `now` models
`time.time()`; `jitter ∈ [0.1,0.5]` models the jitter of the request-count
branch.  Returns `((should_throttle, wait_time), new state)`. -/
def should_throttle_request (api : String) (now jitter : ℚ) (st : RLState) :
    (Bool × ℚ) × RLState :=
  match rlLookup st api with
  | none => ((false, 0), st)
  | some s =>
    let elapsed := now - s.last_request_time
    -- rate-limit-hit branch
    if s.rate_limit_hit ∧ elapsed < s.backoff_time then
      ((true, s.backoff_time - elapsed), st)
    else
      -- possibly reset the hit flag (kept for the state we thread onward)
      let st1 := if s.rate_limit_hit then rlUpdate st api (fun s0 => { s0 with rate_limit_hit := false }) else st
      if s.requests_count > 10 ∧ elapsed < 1 then
        ((true, 1 - elapsed + jitter), st1)
      else
        let st2 := rlUpdate st1 api fun s0 =>
          let s1 := { s0 with last_request_time := now, requests_count := s0.requests_count + 1 }
          if elapsed > 5 then { s1 with requests_count := 1 } else s1
        ((false, 0), st2)

/-- `handle_rate_limit_hit(api_type)` (lines 229–254).  `jitter ∈ [0,0.5]`.
Returns the backoff-plus-jitter value and the updated table. -/
def handle_rate_limit_hit (api : String) (jitter : ℚ) (st : RLState) : ℚ × RLState :=
  match rlLookup st api with
  | none => (1, st)
  | some s =>
    let b := min (s.backoff_time * 2) s.max_backoff
    (b + jitter, rlUpdate st api fun s0 => { s0 with rate_limit_hit := true, backoff_time := b })

/-- Iterated `intelligent_rate_limit_handling` with no retry-after for one
service (the state change is independent of the jitter draws). -/
def iterHit (api : String) : ℕ → RLState → RLState
  | 0, st => st
  | n + 1, st => iterHit api n (intelligent_rate_limit_handling none (some api) 1 1 1 st).2

/-- Iterated `handle_rate_limit_hit` for one service. -/
def iterHandle (api : String) : ℕ → RLState → RLState
  | 0, st => st
  | n + 1, st => iterHandle api n (handle_rate_limit_hit api 0 st).2

/-! ## CacheManager (`lib/config_utils.py`, lines 281–457)

The on-disk store is a map from file path to `(value, mtime)`; `pickle` is an
external stdlib codec whose dump/load round-trip is the identity, so entries
hold the stored value directly.  `_get_cache_key` canonicalizes the key data
to a string and md5-hashes it; both the canonicalization encoding and md5 are
external deterministic routines, modelled together by the parameter `hash`.
What matters for the claims is that equal key data yields equal paths. -/

structure CacheManager where
  cache_dir : String
  max_age : ℚ

/-- The default manager: `CacheManager()` with `max_age=86400*7`. -/
def defaultCacheManager : CacheManager := ⟨"cache", 86400 * 7⟩

/-- The cache store: path ↦ (stored value, mtime). -/
def CacheStore (α : Type) := String → Option (α × ℚ)

def CacheStore.update {α : Type} (fs : CacheStore α) (p : String) (v : α × ℚ) :
    CacheStore α :=
  fun q => if q = p then some v else fs q

/-- `_get_cache_path(cache_key, category)` (lines 323–339). -/
def cachePath (cm : CacheManager) (cache_key : String) (category : Option String) : String :=
  match category with
  | some c => cm.cache_dir ++ "/" ++ c ++ "/" ++ cache_key ++ ".cache"
  | none => cm.cache_dir ++ "/" ++ cache_key ++ ".cache"

/-- `CacheManager.get(key_data, category)` (lines 341–370): absent when the
file is missing or `now - mtime > max_age`. -/
def cacheGet {α : Type} (cm : CacheManager) (hash : String → String) (key_data : String)
    (category : Option String) (now : ℚ) (fs : CacheStore α) : Option α :=
  let p := cachePath cm (hash key_data) category
  match fs p with
  | none => none
  | some (v, mtime) => if now - mtime > cm.max_age then none else some v

/-- `CacheManager.set(key_data, value, category)` (lines 372–394): writes the
pickled value, the file's mtime becoming the write time. -/
def cacheSet {α : Type} (cm : CacheManager) (hash : String → String) (key_data : String)
    (v : α) (category : Option String) (now : ℚ) (fs : CacheStore α) :
    Bool × CacheStore α :=
  let p := cachePath cm (hash key_data) category
  (true, fs.update p (v, now))

/-! ## HTTP retry loops (`lib/gemini_api.py` 145–246, `lib/claude_api.py` 34–127)

An HTTP exchange is either a response with a status code, an optional
well-formed body (for status 200, `none` models a 200 whose JSON lacks the
expected `candidates`/`content` path) and the value of the `retry-after`
header, or a transport failure (`requests.RequestException`). -/

inductive HResp : Type
  | http (status : ℕ) (body : Option String) (retry_after : ℕ) : HResp
  | netErr : HResp

/-- Outcome of a full adapter call: the final result, the number of HTTP
requests actually issued, and the sleeps performed (seconds, in order). -/
structure ApiRun where
  result : Except String String
  requests : ℕ
  sleeps : List ℚ
deriving Repr

/-- The `while retries < max_retries` loop of `generate_script_with_gemini`
(lines 199–246).  `fuel` is the number of remaining iterations
(`max_retries - retries`); `resp n` is the n-th HTTP exchange. -/
def geminiLoop (resp : ℕ → HResp) (max_retries : ℕ) :
    ℕ → ℕ → List ℚ → ApiRun
  | 0, reqs, sleeps => ⟨.error "exhausted", reqs, sleeps.reverse⟩
  | fuel + 1, reqs, sleeps =>
    let retries := max_retries - (fuel + 1)
    match resp reqs with
    | .http 200 (some t) _ => ⟨.ok t, reqs + 1, sleeps.reverse⟩
    | .http 200 none _ => ⟨.error "bad response format", reqs + 1, sleeps.reverse⟩
    | .http 429 _ _ =>
      let wait : ℚ := min (2 ^ retries) 60
      geminiLoop resp max_retries fuel (reqs + 1) (wait :: sleeps)
    | .http 400 _ _ => ⟨.error "api error 400", reqs + 1, sleeps.reverse⟩
    | .http _ _ _ => geminiLoop resp max_retries fuel (reqs + 1) sleeps
    | .netErr =>
      if retries < max_retries - 1 then
        let wait : ℚ := min (2 ^ retries) 60
        geminiLoop resp max_retries fuel (reqs + 1) (wait :: sleeps)
      else ⟨.error "connection failed", reqs + 1, sleeps.reverse⟩

/-- `generate_script_with_gemini(prompt, api_key, max_retries)`; the prompt and
key do not influence the retry logic. -/
def generate_script_with_gemini (resp : ℕ → HResp) (max_retries : ℕ) : ApiRun :=
  geminiLoop resp max_retries max_retries 0 []

/-- The `for attempt in range(max_retries)` loop of
`generate_script_with_claude` (lines 77–127).  On 429 the code calls
`intelligent_rate_limit_handling(retry_after)` with no api_type, which sleeps
`retry_after` seconds (`jNone` models the `random.uniform(1,3)` draw used when
the header value is 0).  Every non-200/429 status — including 400 — takes the
generic branch: raise on the last attempt, otherwise sleep
`min(2**attempt, 30)` and retry. -/
def claudeLoop (resp : ℕ → HResp) (max_retries : ℕ) (jNone : ℚ) :
    ℕ → ℕ → List ℚ → ApiRun
  | 0, reqs, sleeps => ⟨.error "exhausted", reqs, sleeps.reverse⟩
  | fuel + 1, reqs, sleeps =>
    let attempt := max_retries - (fuel + 1)
    match resp reqs with
    | .http 200 (some t) _ => ⟨.ok t, reqs + 1, sleeps.reverse⟩
    | .http 200 none _ =>
      if attempt = max_retries - 1 then ⟨.error "bad response format", reqs + 1, sleeps.reverse⟩
      else claudeLoop resp max_retries jNone fuel (reqs + 1) sleeps
    | .http 429 _ ra =>
      let wait : ℚ := if ra ≠ 0 then (ra : ℚ) else jNone
      claudeLoop resp max_retries jNone fuel (reqs + 1) (wait :: sleeps)
    | .http _ _ _ =>
      if attempt = max_retries - 1 then ⟨.error "api error", reqs + 1, sleeps.reverse⟩
      else
        let wait : ℚ := min (2 ^ attempt) 30
        claudeLoop resp max_retries jNone fuel (reqs + 1) (wait :: sleeps)
    | .netErr =>
      if attempt < max_retries - 1 then
        let wait : ℚ := min (2 ^ attempt) 30
        claudeLoop resp max_retries jNone fuel (reqs + 1) (wait :: sleeps)
      else ⟨.error "connection failed", reqs + 1, sleeps.reverse⟩

/-- `generate_script_with_claude(prompt, model, max_retries)`. -/
def generate_script_with_claude (resp : ℕ → HResp) (max_retries : ℕ) (jNone : ℚ) : ApiRun :=
  claudeLoop resp max_retries jNone max_retries 0 []

/-! ## Regex helpers (`lib/content_generation.py`)

Each function mirrors one concrete regular-expression use of the source on
Python string semantics. -/

/-- Python `\w` on the ASCII inputs involved. -/
def isWordChar (c : Char) : Bool := c.isAlphanum || c = '_'

/-- Python `\s`. -/
def isPySpace (c : Char) : Bool := c.isWhitespace

/-- `re.search(r'(\{[\s\S]*\})', s)`: greedy, so the match runs from the first
brace-open to the last brace-close, and exists iff some brace-close follows the
first brace-open. -/
def braceExtract (s : String) : Option String :=
  let cs := s.toList
  match cs.indexOf? '\x7b', cs.reverse.indexOf? '\x7d' with
  | some i, some jr =>
    let j := cs.length - 1 - jr
    if i < j then some (String.mk ((cs.drop i).take (j - i + 1))) else none
  | _, _ => none

/-- One left-to-right pass implementing
`re.sub(r'(\s*?)(\w+)(\s*?):', r'\1"\2"\3:', s)`: every maximal word-character
run that is followed (after optional whitespace) by a colon gets wrapped in
double quotes; the lazily-matched surrounding whitespace is preserved
unchanged by the replacement, so it can be left in place. -/
def keyQuote : ℕ → List Char → List Char
  | 0, cs => cs
  | _fuel + 1, [] => []
  | fuel + 1, c :: rest =>
    if isWordChar c then
      let w := (c :: rest).takeWhile isWordChar
      let afterW := (c :: rest).dropWhile isWordChar
      let z := afterW.takeWhile isPySpace
      let afterZ := afterW.dropWhile isPySpace
      match afterZ with
      | ':' :: tail => '"' :: (w ++ '"' :: (z ++ ':' :: keyQuote fuel tail))
      | _ => w ++ z ++ keyQuote fuel afterZ
    else c :: keyQuote fuel rest

/-- The JSON-repair pass (lines 265–269 and the analogous hook/short-outline
repairs): replace single quotes by double quotes, then quote bare keys. -/
def pyFixJson (s : String) : String :=
  let cs := s.toList.map fun c => if c = '\'' then '"' else c
  String.mk (keyQuote cs.length cs)

/-- Match attempt for `re.search(r'\[\s*".*"\s*\]', s, re.DOTALL)` starting at
a given bracket-open: optional whitespace, a quote, then (greedy `.*`) up to
the last quote that is followed by optional whitespace and a bracket-close. -/
def arr1From (cs : List Char) : Option (List Char) :=
  match cs with
  | '[' :: rest =>
    let z := rest.takeWhile isPySpace
    let afterZ := rest.dropWhile isPySpace
    match afterZ with
    | '"' :: body =>
      let ks := (List.range body.length).reverse
      match ks.find? (fun k =>
          body.get? k = some '"' &&
          (((body.drop (k + 1)).dropWhile isPySpace).head? = some ']')) with
      | some k =>
        let z2 := (body.drop (k + 1)).takeWhile isPySpace
        some ('[' :: z ++ '"' :: body.take k ++ '"' :: z2 ++ [']'])
      | none => none
    | _ => none
  | _ => none

/-- `re.search(r'\[\s*".*"\s*\]', s, re.DOTALL)`: leftmost starting position
wins. -/
def arr1Match (s : String) : Option String :=
  let cs := s.toList
  ((List.range cs.length).findSome? fun i =>
    if cs.get? i = some '[' then arr1From (cs.drop i) else none).map String.mk

/-- `re.search(r'(\[[\s\S]*?\])', s)`: lazy, so from the first bracket-open to
the first bracket-close after it (if the first bracket-open has no close after
it, no later one does either). -/
def arr2Match (s : String) : Option String :=
  let cs := s.toList
  match cs.indexOf? '[' with
  | none => none
  | some i =>
    match (cs.drop (i + 1)).indexOf? ']' with
    | none => none
    | some j => some (String.mk ((cs.drop i).take (j + 2)))

/-- `re.findall(r'"([^"]*)"', s)`: non-overlapping quote pairs, left to
right. -/
def findallQuotes : ℕ → List Char → List String
  | 0, _ => []
  | fuel + 1, cs =>
    match cs.dropWhile (· ≠ '"') with
    | [] => []
    | _ :: rest =>
      let inner := rest.takeWhile (· ≠ '"')
      match rest.dropWhile (· ≠ '"') with
      | [] => []
      | _ :: tail => String.mk inner :: findallQuotes fuel tail

/-- `re.match(r'^[\d\.\-\*]\s+(.+)$', line)` together with the
prefix-stripping `re.sub(r'^[\d\.\-\*]\s+', '', line)` (lines 692–693): one
class character, at least one whitespace character, then the captured
remainder (nonempty). -/
def numberedTerm (line : String) : Option String :=
  match line.toList with
  | [] => none
  | c :: rest =>
    if c.isDigit || c = '.' || c = '-' || c = '*' then
      let z := rest.takeWhile isPySpace
      let rest2 := rest.dropWhile isPySpace
      if !z.isEmpty && !rest2.isEmpty then some (String.mk rest2) else none
    else none

/-! ## `PromptChain` outline handling (`lib/content_generation.py`, 194–407) -/

/-- One item accumulated by `_extract_outline_fallback`. -/
structure ExtItem where
  rank : Int
  title : String
  descr : String
  visuals : List String
deriving Repr, DecidableEq

/-- Loop state of `_extract_outline_fallback`. -/
structure ExtAcc where
  hook : String
  thesis : String
  concl : String
  items : List ExtItem
  cur : Option ExtItem

/-- The numbers 1..10 (`range(1, 11)`). -/
def oneToTen : List ℕ := List.range' 1 10

/-- One iteration of the line loop of `_extract_outline_fallback`
(lines 327–360), mirroring the `if`/`elif` chain. -/
def extLine (topic : String) (acc : ExtAcc) (raw : String) : ExtAcc :=
  let line := pyStrip raw
  let low := pyLower line
  if strContains low "hook" && strContains line ":" then
    { acc with hook := pyStrip (afterFirst line ':') }
  else if strContains low "thesis" && strContains line ":" then
    { acc with thesis := pyStrip (afterFirst line ':') }
  else if strContains low "conclusion" && strContains line ":" then
    { acc with concl := pyStrip (afterFirst line ':') }
  else if oneToTen.any fun i => strContains (take5 line) (toString i) then
    match oneToTen.find? (fun i =>
        strContains (take5 line) (toString i ++ ".") ||
        strContains (take5 line) ("#" ++ toString i) ||
        strContains (take5 line) (toString i ++ ":")) with
    | some i =>
      let items2 := match acc.cur with
        | some it => acc.items ++ [it]
        | none => acc.items
      let t := if strContains line "." then pyStrip (afterFirst line '.') else line
      let ni : ExtItem := ⟨(i : Int), t,
        "This is item #" ++ toString i ++ " about " ++ topic,
        [topic ++ " " ++ toString i, t ++ " visualization"]⟩
      { acc with items := items2, cur := some ni }
    | none => acc
  else if acc.cur.isSome && line ≠ "" && !pyStarts line "#" &&
      !pyStarts line "\x7b" && !pyStarts line "\x7d" then
    match acc.cur with
    | some it => { acc with cur := some { it with descr := it.descr ++ " " ++ line } }
    | none => acc
  else acc

/-- `while len(items) < 10: items.append(...)` (lines 367–373). -/
def padItems (topic : String) : ℕ → List ExtItem → List ExtItem
  | 0, items => items
  | fuel + 1, items =>
    if items.length < 10 then
      padItems topic fuel (items ++
        [⟨(items.length + 1 : Int),
          "Example of " ++ topic ++ " #" ++ toString (items.length + 1),
          "This is an interesting example of " ++ topic ++ ".",
          [topic ++ " example", topic ++ " visual"]⟩])
    else items

def extItemJ (it : ExtItem) : J :=
  J.obj [("rank", J.jn it.rank), ("title", J.js it.title),
         ("description", J.js it.descr), ("visuals", J.arr (it.visuals.map J.js))]

/-- `_extract_outline_fallback(outline_text)` (lines 310–383): heuristic
line-based extraction, padded up to ten items (but never truncated), returned
as the JSON outline that `json.dumps` would serialize. -/
def extract_outline_fallback (topic : String) (text : String) : J :=
  let init : ExtAcc :=
    ⟨"Welcome to our video about " ++ topic,
     "Today we\x27re exploring the top 10 " ++ topic,
     "Thanks for watching our video about " ++ topic ++
       ". If you enjoyed this content, please like and subscribe!",
     [], none⟩
  let acc := (pyLines text).foldl (extLine topic) init
  let items0 := match acc.cur with
    | some it => acc.items ++ [it]
    | none => acc.items
  let items := padItems topic 10 items0
  J.obj [("hook", J.js acc.hook), ("thesis", J.js acc.thesis),
         ("items", J.arr (items.map extItemJ)), ("conclusion", J.js acc.concl)]

/-- `_create_fallback_outline()` (lines 385–407): ten synthetic items in
descending rank order. -/
def fallbackOutline (topic genre : String) : J :=
  let items := (oneToTen.reverse).map fun i =>
    J.obj [("rank", J.jn i),
           ("title", J.js ("#" ++ toString i ++ ": Example of " ++ topic)),
           ("description", J.js ("This is the #" ++ toString i ++ " best example of " ++ topic ++ ".")),
           ("visuals", J.arr [J.js (topic ++ " " ++ toString i),
                              J.js (topic ++ " example " ++ toString i)])]
  J.obj [("hook", J.js ("Welcome to our top 10 video about " ++ topic ++ "!")),
         ("thesis", J.js ("Today we\x27re counting down the 10 best examples of " ++ topic ++
           " in the " ++ genre ++ " category.")),
         ("items", J.arr items),
         ("conclusion", J.js ("Thanks for watching our video about " ++ topic ++
           ". If you enjoyed this content, please like and subscribe!"))]

/-- Item-structure check of `_validate_outline` (lines 304–306); `key in item`
can raise `TypeError` for non-dict items (propagated as `.error`). -/
def validateItems : List J → Except Unit Bool
  | [] => pure true
  | it :: rest => do
    let c1 ← it.containsKey "rank"
    if !c1 then pure false else do
      let c2 ← it.containsKey "title"
      if !c2 then pure false else do
        let c3 ← it.containsKey "description"
        if !c3 then pure false else validateItems rest

/-- `_validate_outline(outline_json)` (lines 286–308).  `key in x` and
`x["items"]` can raise for non-dict JSON values; a raise propagates to the
caller (modelled as `.error ()`), mirroring that the generator-based `all`
short-circuits on the first failing key. -/
def validate_outline (oj : J) : Except Unit Bool := do
  let b1 ← oj.containsKey "hook"
  if !b1 then pure false else do
    let b2 ← oj.containsKey "thesis"
    if !b2 then pure false else do
      let b3 ← oj.containsKey "items"
      if !b3 then pure false else do
        let b4 ← oj.containsKey "conclusion"
        if !b4 then pure false else do
          let items ← oj.indexKey "items"
          match items with
          | J.arr l => if l.length < 5 then pure false else validateItems l
          | _ => pure false

/-! ## `PromptChain` steps (`lib/content_generation.py`, 82–708)

`svc n` is the outcome of the n-th `_generate_content` call (the composite
Gemini/Claude call with mutual fallback); the prompt text does not influence
the modelled control flow, so steps are indexed by a running call counter.
`self.max_retries = 2` is fixed by `__init__`, so two-iteration loops are
unrolled. -/

/-- The validity check of `_execute_research` (line 184). -/
def researchValid (r : String) : Bool := r.length > 300 && strContains r ":"

/-- The fallback research text (line 192). -/
def research_fallback (topic genre : String) : String :=
  "The topic " ++ topic ++ " is part of the " ++ genre ++
    " category. This will be a top 10 video about the best examples of " ++ topic ++ "."

/-- `_execute_research()` (lines 156–192): two attempts; a generation raise on
the last attempt re-raises, an invalid (short) result on both attempts falls
back. -/
def execute_research (svc : ℕ → Except Unit String) (topic genre : String) (i : ℕ) :
    Except Unit (String × ℕ) :=
  match svc i with
  | .ok r =>
    if researchValid r then .ok (r, i + 1)
    else
      match svc (i + 1) with
      | .ok r2 =>
        if researchValid r2 then .ok (r2, i + 2)
        else .ok (research_fallback topic genre, i + 2)
      | .error _ => .error ()
  | .error _ =>
    match svc (i + 1) with
    | .ok r2 =>
      if researchValid r2 then .ok (r2, i + 2)
      else .ok (research_fallback topic genre, i + 2)
    | .error _ => .error ()

/-- Outcome of processing one generated outline text inside the attempt loop
of `_create_outline` (lines 241–281):
* `success j` — a parse validated and the attempt returns it;
* `contin` — the text parsed but failed validation (no exception, no return):
  the loop continues, and after the last attempt `_create_fallback_outline`
  is returned;
* `extractFB` — the repair parse raised: the bare `except` returns
  `_extract_outline_fallback` on the last attempt, else continues;
* `outerFail` — validation raised a non-`JSONDecodeError` error on the parsed
  original text: the outer handler treats the attempt as failed and re-raises
  on the last attempt. -/
inductive OAtt : Type
  | success (j : J)
  | extractFB
  | contin
  | outerFail

def outline_attempt (jp : String → Option J) (s : String) : OAtt :=
  let viaBrace : Option J :=
    match braceExtract s with
    | some e =>
      match jp e with
      | some j =>
        match validate_outline j with
        | .ok true => some j
        | _ => none
      | none => none
    | none => none
  match viaBrace with
  | some j => .success j
  | none =>
    match jp s with
    | some j =>
      match validate_outline j with
      | .ok true => .success j
      | .ok false => .contin
      | .error _ => .outerFail
    | none =>
      match jp (pyFixJson s) with
      | some j =>
        match validate_outline j with
        | .ok true => .success j
        | .ok false => .contin
        | .error _ => .extractFB
      | none => .extractFB

/-- `_create_outline()` (lines 194–284): two attempts; a generation raise or a
validation type-error on the last attempt re-raises; otherwise the attempt
outcomes decide between the extracted fallback and the synthetic fallback. -/
def create_outline (svc : ℕ → Except Unit String) (jp : String → Option J)
    (topic genre : String) (i : ℕ) : Except Unit (J × ℕ) :=
  match svc i with
  | .error _ =>
    match svc (i + 1) with
    | .error _ => .error ()
    | .ok s2 =>
      match outline_attempt jp s2 with
      | .success j => .ok (j, i + 2)
      | .extractFB => .ok (extract_outline_fallback topic s2, i + 2)
      | .contin => .ok (fallbackOutline topic genre, i + 2)
      | .outerFail => .error ()
  | .ok s1 =>
    match outline_attempt jp s1 with
    | .success j => .ok (j, i + 1)
    | _ =>
      match svc (i + 1) with
      | .error _ => .error ()
      | .ok s2 =>
        match outline_attempt jp s2 with
        | .success j => .ok (j, i + 2)
        | .extractFB => .ok (extract_outline_fallback topic s2, i + 2)
        | .contin => .ok (fallbackOutline topic genre, i + 2)
        | .outerFail => .error ()

/-- The fallback script of `_create_fallback_script` (lines 502–534), with the
ten generated sections; the indentation whitespace of the Python literal is
not reproduced character-for-character (nothing inspects it). -/
def fallback_script (topic genre : String) : String :=
  let intro := "INTRO: Welcome to our video about " ++ topic ++
    "! Today we\x27ll be counting down the top 10 examples in the " ++ genre ++
    " category. Whether you\x27re a fan or just curious, we\x27ve got some amazing selections for you. Let\x27s get started!"
  let body := String.join ((oneToTen.reverse).map fun i =>
    " #" ++ toString i ++ ": Coming in at number " ++ toString i ++
    ", we have an amazing example of " ++ topic ++
    ". This one stands out because of its unique features and impressive qualities. It\x27s definitely earned its place on our list because of its outstanding characteristics and popularity among fans.")
  let concl := " CONCLUSION: Thanks for watching our countdown of the top 10 " ++ topic ++
    "! If you enjoyed this video, please like, comment, and subscribe for more content like this. Let us know in the comments if you agree with our list or if we missed any of your favorites!"
  intro ++ body ++ concl

/-- Whether `for item in items: prompt += ... item.get(...)` succeeds without
raising: `items` must iterate into values that all support `.get`
(dicts).  A nonempty string iterates into characters and an object into its
keys, both of which lack `.get`; numbers and `None` are not iterable. -/
def iterItemsOk : J → Bool
  | J.arr l => l.all fun it => match it with
    | J.obj _ => true
    | _ => false
  | J.js s => s = ""
  | J.obj kvs => kvs.isEmpty
  | _ => false

/-- `_develop_full_script()` (lines 409–472): builds a prompt from the stored
outline (any raise while doing so degrades to the fallback script without a
generation call), then generates; a script shorter than 500 characters is
expanded by one further generation call, and any generation raise degrades to
the fallback script. -/
def develop_full_script (svc : ℕ → Except Unit String) (outline : Option J)
    (topic genre : String) (i : ℕ) : String × ℕ :=
  match outline with
  | none => (fallback_script topic genre, i)
  | some oj =>
    match oj with
    | J.obj kvs =>
      let items := (J.lookup kvs "items").getD (J.arr [])
      if !iterItemsOk items then (fallback_script topic genre, i)
      else
        match svc i with
        | .error _ => (fallback_script topic genre, i + 1)
        | .ok s =>
          if s.length < 500 then
            match svc (i + 1) with
            | .error _ => (fallback_script topic genre, i + 2)
            | .ok s2 => (s2, i + 2)
          else (s, i + 1)
    | _ => (fallback_script topic genre, i)

/-- `key in hooks_json` where a `TypeError` and a plain `False` lead to the
same continuation in every use inside `_create_hooks` (both fall through to
the next parse stage or the fallback), so they are merged. -/
def hasKeyB (x : J) (k : String) : Bool :=
  match x.containsKey k with
  | .ok b => b
  | .error _ => false

/-- The key check of `_create_hooks` (lines 577, 585, 596). -/
def hooks3 (h : J) : Bool :=
  hasKeyB h "opening_hook" && hasKeyB h "finale_hook" && hasKeyB h "subscription_hook"

/-- The fallback hooks dict (lines 604–610). -/
def fallbackHooks (topic genre : String) : J :=
  J.obj [("opening_hook", J.js ("These are the 10 most amazing examples of " ++ topic ++ " you need to see!")),
         ("intro_hook", J.js ("The #1 item on this list shocked even the experts in " ++ genre ++ "!")),
         ("midpoint_hook", J.js ("You won\x27t believe what\x27s coming in the top 5 " ++ topic ++ " examples!")),
         ("finale_hook", J.js ("The next example is considered by many to be the absolute best " ++ topic ++ " of all time!")),
         ("subscription_hook", J.js ("Subscribe now for more amazing content about " ++ genre ++ " and " ++ topic ++ "!"))]

/-- `_create_hooks()` (lines 536–612): one generation call, brace-extract /
direct / repaired parses in order, each gated by the key check; every failure
path ends at the fallback hooks. -/
def create_hooks (svc : ℕ → Except Unit String) (jp : String → Option J)
    (topic genre : String) (i : ℕ) : J × ℕ :=
  match svc i with
  | .error _ => (fallbackHooks topic genre, i + 1)
  | .ok s =>
    let viaBrace : Option J :=
      match braceExtract s with
      | some e =>
        match jp e with
        | some h => if hooks3 h then some h else none
        | none => none
      | none => none
    match viaBrace with
    | some h => (h, i + 1)
    | none =>
      match jp s with
      | some h => if hooks3 h then (h, i + 1) else (fallbackHooks topic genre, i + 1)
      | none =>
        match jp (pyFixJson s) with
        | some h => if hooks3 h then (h, i + 1) else (fallbackHooks topic genre, i + 1)
        | none => (fallbackHooks topic genre, i + 1)

/-- The fallback search terms (lines 706–708); 20 for long-form. -/
def fallbackTerms (topic : String) (count : ℕ) : J :=
  J.arr ((List.range' 1 count).map fun k => J.js (topic ++ " " ++ toString k))

/-- The manual extraction of the `JSONDecodeError` handler (lines 680–699):
quoted strings if any, else numbered/bulleted lines longer than five
characters. -/
def manualTerms (s : String) : List String :=
  let qs := findallQuotes s.length.succ s.toList
  if !qs.isEmpty then qs
  else
    (pyLines s).filterMap fun line =>
      match numberedTerm (pyStrip line) with
      | some t => if t ≠ "" && t.length > 5 then some t else none
      | none => none

/-- `_generate_search_terms()` (lines 614–708) for the long-form chain:
array-regex / lazy-array-regex / direct parses, requiring a nonempty list;
`JSONDecodeError` triggers the manual extraction; everything else falls back
to the synthetic terms.  Never raises. -/
def gen_search_terms (svc : ℕ → Except Unit String) (jp : String → Option J)
    (topic : String) (i : ℕ) : J × ℕ :=
  match svc i with
  | .error _ => (fallbackTerms topic 20, i + 1)
  | .ok s =>
    let parsed : Option J :=
      match arr1Match s with
      | some m => jp m
      | none =>
        match arr2Match s with
        | some m2 =>
          match jp m2 with
          | some j => some j
          | none => jp s
        | none => jp s
    match parsed with
    | some j =>
      match j with
      | J.arr l =>
        if l.length > 0 then (j, i + 1) else (fallbackTerms topic 20, i + 1)
      | _ => (fallbackTerms topic 20, i + 1)
    | none =>
      let terms := manualTerms s
      if !terms.isEmpty then (J.arr (terms.map J.js), i + 1)
      else (fallbackTerms topic 20, i + 1)

/-! ## `_compile_final_output` (`lib/content_generation.py`, 888–973) -/

/-- One entry of `output["top10"]`: a dict with keys
`name`/`rank`/`script`/`search_terms`, all holding JSON values. -/
structure TItem where
  name : J
  rank : J
  script : J
  search_terms : J

/-- The `self.results` dict as consumed by `_compile_final_output`.  String
entries hold raw text; JSON entries hold the outcome of the `json.loads`
re-parse the compile step performs (`.error` models a parse raise). -/
structure ChainResults where
  research : Option String
  outline : Option (Except Unit J)
  detailed_script : Option String
  hooks : Option (Except Unit J)
  search_terms : Option (Except Unit J)

/-- The compiled output dict.  Keys that a run may leave unset are `Option`s. -/
structure Output where
  title : String
  genre : String
  language : String
  intro_text : Option String
  conclusion : Option J
  top10 : List TItem
  hooks : Option J
  search_terms : Option J
  full_script : Option String
  research : Option String

/-- The item-extraction loop (lines 913–919): one `top10` entry per outline
item, with the source's defaults; a non-dict item raises `AttributeError`,
leaving the entries appended so far in place (flag `false`). -/
def extractTItems (topic : String) : List J → List TItem × Bool
  | [] => ([], true)
  | J.obj kvs :: rest =>
    let (ts, ok) := extractTItems topic rest
    (⟨(J.lookup kvs "title").getD (J.js ("Example of " ++ topic)),
      (J.lookup kvs "rank").getD (J.jn 0),
      (J.lookup kvs "description").getD (J.js ""),
      (J.lookup kvs "visuals").getD (J.arr [J.js (topic ++ " visual")])⟩ :: ts, ok)
  | _ :: _ => ([], false)

/-- Insert into an already descending list, after equal keys (so that a
left-to-right fold is stable, like Python's `sorted(..., reverse=True)`);
comparison failures propagate like `TypeError` from `sorted`. -/
def insDesc (x : TItem) : List TItem → Except Unit (List TItem)
  | [] => .ok [x]
  | y :: ys => do
    let b ← J.pyLt y.rank x.rank
    if b then .ok (x :: y :: ys)
    else do
      let r ← insDesc x ys
      .ok (y :: r)

/-- `sorted(output["top10"], key=lambda x: x.get("rank", 0), reverse=True)`
(line 923): stable descending sort by rank; all `top10` dicts carry a `rank`
key, so the `.get` default never fires here. -/
def sortDesc (l : List TItem) : Except Unit (List TItem) :=
  l.foldlM (fun acc x => insDesc x acc) []

/-- The fallback items of the `except` branch (lines 928–933). -/
def fallbackTop10 (topic : String) : List TItem :=
  (oneToTen.reverse).map fun i =>
    ⟨J.js ("Example " ++ toString i ++ " of " ++ topic), J.jn i,
     J.js ("This is example " ++ toString i ++ " of " ++ topic ++ "."),
     J.arr [J.js (topic ++ " " ++ toString i)]⟩

/-- The outline-consuming `try` block (lines 903–923), returning the
`intro_text` and `conclusion` assignments made before any raise, the `top10`
list accumulated so far, and whether the block raised. -/
def compileOutlinePhase (topic : String) (outline : Option (Except Unit J)) :
    Option String × Option J × List TItem × Bool :=
  match outline with
  | none => (none, none, [], false)
  | some (.error _) => (none, none, [], true)
  | some (.ok oj) =>
    match oj with
    | J.obj kvs =>
      let hook := (J.lookup kvs "hook").getD (J.js "")
      let thesis := (J.lookup kvs "thesis").getD (J.js "")
      match hook, thesis with
      | J.js h, J.js t =>
        let intro := some (h ++ " " ++ t)
        let concl := some ((J.lookup kvs "conclusion").getD (J.js ""))
        match J.lookup kvs "items" with
        | some (J.arr its) =>
          let (tis, ok) := extractTItems topic its
          if !ok then (intro, concl, tis, true)
          else if tis.isEmpty then (intro, concl, [], false)
          else
            match sortDesc tis with
            | .ok sorted => (intro, concl, sorted, false)
            | .error _ => (intro, concl, tis, true)
        | _ => (intro, concl, [], false)
      | _, _ => (none, none, [], true)
    | _ => (none, none, [], true)

/-- The search-term distribution loop (lines 950–961): walks the (sorted)
items with a running index into the generated term list; items whose
`search_terms` entry is falsy receive the next `terms_per_item` terms (or
whatever remains), others are untouched. -/
def distribItems (tpi : ℕ) (terms : List J) : List TItem → ℕ → List TItem
  | [], _ => []
  | it :: rest, idx =>
    if J.falsy it.search_terms then
      let its := (terms.drop idx).take tpi
      { it with search_terms := J.arr its } :: distribItems tpi terms rest (idx + its.length)
    else
      it :: distribItems tpi terms rest idx

/-- `_compile_final_output()` (lines 888–973). -/
def compile_final_output (topic genre language : String) (res : ChainResults) : Output :=
  let phase := compileOutlinePhase topic res.outline
  let intro := phase.1
  let concl := phase.2.1
  let t10a := phase.2.2.1
  let raised := phase.2.2.2
  let top10 := if raised && t10a.isEmpty then fallbackTop10 topic else t10a
  let hooksOut : Option J :=
    match res.hooks with
    | some (.ok h) => some h
    | _ => none
  let stPair : Option J × List TItem :=
    match res.search_terms with
    | some (.ok st) =>
      match st with
      | J.arr terms =>
        if !top10.isEmpty then
          let tpi := max 1 (terms.length / top10.length)
          (some st, distribItems tpi terms top10 0)
        else (some st, top10)
      | _ => (some st, top10)
    | _ => (none, top10)
  { title := topic, genre := genre, language := language,
    intro_text := intro, conclusion := concl, top10 := stPair.2,
    hooks := hooksOut, search_terms := stPair.1,
    full_script := res.detailed_script, research := res.research }

/-- `execute_chain()` (lines 82–124).  Only `_execute_research` and
`_create_outline` can raise; in either case the salvage check of the outer
handler (`if self.results and "outline" in self.results`) fails — the results
dict is empty, respectively lacks `"outline"` — so the error is re-raised.
All later steps return normally, and the final compile consumes the stored
results (each stored as `json.dumps` output, so the compile-time re-parse
yields the structured value back). -/
def execute_chain (svc : ℕ → Except Unit String) (jp : String → Option J)
    (topic genre language : String) : Except Unit Output :=
  match execute_research svc topic genre 0 with
  | .error _ => .error ()
  | .ok (research, i1) =>
    match create_outline svc jp topic genre i1 with
    | .error _ => .error ()
    | .ok (outline, i2) =>
      let sc := develop_full_script svc (some outline) topic genre i2
      let hk := create_hooks svc jp topic genre sc.2
      let st := gen_search_terms svc jp topic hk.2
      .ok (compile_final_output topic genre language
        { research := some research, outline := some (.ok outline),
          detailed_script := some sc.1, hooks := some (.ok hk.1),
          search_terms := some (.ok st.1) })

/-! ## Segment processing and orchestration (`lib/async_core.py`)

The filesystem is a path-indexed map.  `getim` (stock-image download,
`lib/image_procces.py`, not among the sources) is, per the spec, an opaque
media-fetch collaborator: its outcome for a given segment is passed in as an
`Except`.  Modelled from the spec: `delete_invalid_images` / `sortimage` /
`shape_error` are local CPU post-processing over the downloaded images and
leave the image set in place; `generate_voice` is the opaque speech-synthesis
collaborator writing one audio file; `mergevideo` is the opaque assembly
collaborator.  `cv2` (used by `_create_fallback_image`) is the opaque image
encoder, modelled as succeeding.

Concurrency model: `asyncio.gather(audio_task, media_task)` lets both tasks
run to completion; since the media path catches every exception internally,
only the audio task can carry an exception, which `gather` re-raises after the
fan-in, landing in the segment's own `except` handler.  The independent
per-segment tasks own disjoint directories, so the fan-out/fan-in is modelled
by sequential composition of the per-segment state transformations. -/

inductive FileData : Type
  | image (w h : ℕ) (txt : String)
  | audioFile (txt : String)
  | mediaFile (tag : String)
deriving Repr, DecidableEq

def FS : Type := String → Option FileData

def FS.write (fs : FS) (p : String) (d : FileData) : FS :=
  fun q => if q = p then some d else fs q

/-- A file counts as a usable visual asset when it is an image with a nonzero
pixel area. -/
def nonEmptyImage : FileData → Bool
  | .image w h _ => w > 0 && h > 0
  | _ => false

/-- Images downloaded by `getim` land in the segment directory. -/
def writeImgs (dir : String) (imgs : List FileData) (fs : FS) : FS :=
  (imgs.enum).foldl (fun f kd => f.write (dir ++ "/img_" ++ toString kd.1) kd.2) fs

/-- `_create_fallback_image(directory)` (lines 361–377): a 1920×1080 black
frame carrying the topic title, written as `fallback.jpg`. -/
def create_fallback_image (topic dir : String) (fs : FS) : FS :=
  fs.write (dir ++ "/fallback.jpg") (FileData.image 1920 1080 topic)

/-- `_get_images(search_term, output_dir)` (lines 331–359): on any failure of
the download/post-processing pipeline the handler writes the fallback image
and returns `False` — it never raises. -/
def get_images (getimRes : Except Unit (List FileData)) (topic dir : String) (fs : FS) :
    Bool × FS :=
  match getimRes with
  | .ok imgs => (true, writeImgs dir imgs fs)
  | .error _ => (false, create_fallback_image topic dir fs)

/-- Immaterial stringification used where the code passes a JSON value into an
f-string or to the speech collaborator; no claim inspects this text. -/
def jAsText : J → String
  | J.js s => s
  | _ => ""

/-- `search_terms[0] if search_terms else f"{name} {self.genre}"` (line 225)
on the JSON value stored under `search_terms`. -/
def firstSearchTerm (st : J) (name genre : String) : String :=
  if J.falsy st then name ++ " " ++ genre
  else
    match st with
    | J.arr (x :: _) => jAsText x
    | J.js s => String.mk (s.toList.take 1)
    | _ => ""

/-- `_process_item(item, num)` (lines 191–234): derives the prefixed text with
the literal `,,..,` pause marker, then runs the audio and media tasks; the
media path degrades internally, so the coroutine returns `False` exactly when
the audio task raised, and never raises itself. -/
def process_item (tempDir topic genre : String) (audioRes : Except Unit Unit)
    (getimRes : Except Unit (List FileData)) (item : TItem) (num : ℕ) (fs : FS) :
    Bool × FS :=
  let item_dir := tempDir ++ "/" ++ toString num
  let name := jAsText item.name
  let script := jAsText item.script
  let full_text := "number " ++ toString num ++ " " ++ name ++ ",,..," ++ script
  let _search_term := firstSearchTerm item.search_terms name genre
  let fs1 := match audioRes with
    | .ok _ => fs.write (item_dir ++ "/" ++ toString num ++ ".mp3") (FileData.audioFile full_text)
    | .error _ => fs
  let med := get_images getimRes topic item_dir fs1
  match audioRes with
  | .ok _ => (true, med.2)
  | .error _ => (false, med.2)

/-- `_get_intro_media(intro_dir)` (lines 379–413): with the `intro_video`
option a video download is attempted first (falling back to images), otherwise
images are fetched directly; every failure path degrades. -/
def get_intro_media (useVideo : Bool) (videoRes : Except Unit String)
    (getimRes : Except Unit (List FileData)) (topic dir : String) (fs : FS) :
    Bool × FS :=
  if useVideo then
    match videoRes with
    | .ok url => (true, fs.write (dir ++ "/intro.mp4") (FileData.mediaFile url))
    | .error _ => get_images getimRes topic dir fs
  else get_images getimRes topic dir fs

/-- `_process_intro()` (lines 152–189): directory `11`; the opening hook
overrides the intro text when present; returns `False` exactly when a task
raised (only the audio task can). -/
def process_intro (tempDir topic : String) (content : Output)
    (audioRes : Except Unit Unit) (useVideo : Bool) (videoRes : Except Unit String)
    (getimRes : Except Unit (List FileData)) (fs : FS) : Bool × FS :=
  let intro_dir := tempDir ++ "/11"
  let base := content.intro_text.getD ("Welcome to our top ten video about " ++ topic ++ ".")
  let intro_text := match content.hooks with
    | some (J.obj kvs) =>
      match J.lookup kvs "opening_hook" with
      | some v => jAsText v
      | none => base
    | _ => base
  let fs1 := match audioRes with
    | .ok _ => fs.write (intro_dir ++ "/11.mp3") (FileData.audioFile intro_text)
    | .error _ => fs
  let med := get_intro_media useVideo videoRes getimRes topic intro_dir fs1
  match audioRes with
  | .ok _ => (true, med.2)
  | .error _ => (false, med.2)

/-- `_get_outro_image(outro_dir)` (lines 415–446): a random outro picture from
the download list, else a generic image search, else the fallback image. -/
def get_outro_image (outroPick : Except Unit String)
    (getimRes : Except Unit (List FileData)) (topic dir : String) (fs : FS) :
    Bool × FS :=
  match outroPick with
  | .ok url => (true, fs.write (dir ++ "/1.jpg") (FileData.mediaFile url))
  | .error _ => get_images getimRes topic dir fs

/-- `_process_outro()` (lines 236–273): directory `0`; the subscription hook
is appended to the conclusion when present. -/
def process_outro (tempDir topic : String) (content : Output)
    (audioRes : Except Unit Unit) (outroPick : Except Unit String)
    (getimRes : Except Unit (List FileData)) (fs : FS) : Bool × FS :=
  let outro_dir := tempDir ++ "/0"
  let base := match content.conclusion with
    | some c => jAsText c
    | none => "Thanks for watching our video about " ++ topic ++
        ". If you enjoyed this content, please like and subscribe!"
  let outro_text := match content.hooks with
    | some (J.obj kvs) =>
      match J.lookup kvs "subscription_hook" with
      | some v => base ++ " " ++ jAsText v
      | none => base
    | _ => base
  let fs1 := match audioRes with
    | .ok _ => fs.write (outro_dir ++ "/0.mp3") (FileData.audioFile outro_text)
    | .error _ => fs
  let med := get_outro_image outroPick getimRes topic outro_dir fs1
  match audioRes with
  | .ok _ => (true, med.2)
  | .error _ => (false, med.2)

/-- The fan-out over `content["top10"]` (lines 76–79): item `i` (0-based)
runs as segment number `i+1` with its own directory. -/
def processItems (tempDir topic genre : String) (audioRes : ℕ → Except Unit Unit)
    (mediaRes : ℕ → Except Unit (List FileData)) :
    List TItem → ℕ → FS → List Bool × FS
  | [], _, fs => ([], fs)
  | it :: rest, num, fs =>
    let r := process_item tempDir topic genre (audioRes num) (mediaRes num) it num fs
    let rs := processItems tempDir topic genre audioRes mediaRes rest (num + 1) r.2
    (r.1 :: rs.1, rs.2)

/-- Result of one `generate_video()` run: the per-segment coroutine results in
order (intro, items 1..n, outro), how many times the assembly step ran, and
the overall outcome. -/
structure OrchRun where
  segs : List Bool
  mergeCalls : ℕ
  result : Except Unit String
deriving Repr

/-- `_merge_video()` (lines 501–538): one `mergevideo` collaborator call;
a raise propagates. -/
def merge_video (mergeRes : Except Unit Unit) : Except Unit String :=
  match mergeRes with
  | .ok _ => .ok "UnQTube_output.mp4"
  | .error _ => .error ()

/-- `generate_video()` (lines 47–100): content generation, the falsy-`top10`
guard, concurrent fan-out over intro + items + outro, fan-in, then exactly one
assembly call; segment indices for the media/audio collaborators are
0 (intro), 1..n (items), 11 (outro). -/
def generate_video (topic genre tempDir : String) (content : Except Unit Output)
    (audioRes : ℕ → Except Unit Unit) (mediaRes : ℕ → Except Unit (List FileData))
    (useVideo : Bool) (videoRes : Except Unit String) (outroPick : Except Unit String)
    (mergeRes : Except Unit Unit) (fs : FS) : OrchRun × FS :=
  match content with
  | .error _ => (⟨[], 0, .error ()⟩, fs)
  | .ok c =>
    if c.top10.isEmpty then (⟨[], 0, .error ()⟩, fs)
    else
      let ri := process_intro tempDir topic c (audioRes 0) useVideo videoRes (mediaRes 0) fs
      let rs := processItems tempDir topic genre audioRes mediaRes c.top10 1 ri.2
      let ro := process_outro tempDir topic c (audioRes 11) outroPick (mediaRes 11) rs.2
      let segs := ri.1 :: rs.1 ++ [ro.1]
      match merge_video mergeRes with
      | .ok p => (⟨segs, 1, .ok p⟩, ro.2)
      | .error _ => (⟨segs, 1, .error ()⟩, ro.2)

/-! ## Statement-side definitions for the compile-step properties -/

/-- Boolean check that a `top10` list is sorted by descending integer rank. -/
def ranksSortedDesc : List TItem → Bool
  | [] => true
  | [_] => true
  | a :: b :: rest =>
    (match a.rank, b.rank with
     | J.jn ra, J.jn rb => decide (rb ≤ ra)
     | _, _ => false) && ranksSortedDesc (b :: rest)

/-- Boolean check that every item's rank is an integer. -/
def allIntRankB (l : List TItem) : Bool :=
  l.all fun ti => match ti.rank with
    | J.jn _ => true
    | _ => false

/-- `rge a b`: item `a`'s integer rank is at least item `b`'s. -/
def rge (a b : TItem) : Prop :=
  ∀ ra rb : Int, a.rank = J.jn ra → b.rank = J.jn rb → rb ≤ ra

/-- Descending-rank order as a pairwise property. -/
def RanksDesc (l : List TItem) : Prop := List.Pairwise rge l

/-- Modelled from the spec (final compile step, as amended): the generated
search terms are split into consecutive blocks of `terms_per_item` terms; the
k-th item lacking its own search terms receives the k-th block (empty once the
list is exhausted), and items that already have terms are untouched. -/
def distributeSpec (tpi : ℕ) (terms : List J) : List TItem → ℕ → List TItem
  | [], _ => []
  | it :: rest, k =>
    if J.falsy it.search_terms then
      { it with search_terms := J.arr ((terms.drop (k * tpi)).take tpi) } ::
        distributeSpec tpi terms rest (k + 1)
    else it :: distributeSpec tpi terms rest k

/-- A well-formed ten-item outline whose items all lack their own search terms
(`visuals` present but empty, which is falsy). -/
def tenLackingOutline : J :=
  J.obj [("hook", J.js "H"), ("thesis", J.js "T"),
         ("items", J.arr ((oneToTen.reverse).map fun i =>
           J.obj [("rank", J.jn i), ("title", J.js ("I" ++ toString i)),
                  ("description", J.js "d"), ("visuals", J.arr [])])),
         ("conclusion", J.js "C")]

/-- A generated text on which every JSON-parsing stage of the outline step
fails: the brace-extracted fragment (when one exists), the raw text, and the
quote/key-repaired text all fail `json.loads`. -/
def Unparseable (jp : String → Option J) (s : String) : Prop :=
  (∀ e, braceExtract s = some e → jp e = none) ∧
  jp s = none ∧ jp (pyFixJson s) = none

/-! # Theorems -/

/-! ## Rate limiter lemmas -/

lemma rlLookup_rlUpdate_self (st : RLState) (api : String) (f : SvcState → SvcState) :
    rlLookup (rlUpdate st api f) api = (rlLookup st api).map f := by
  induction st with
  | nil => rfl
  | cons kv rest ih =>
    obtain ⟨k, v⟩ := kv
    by_cases h : k = api <;> simp [rlLookup, rlUpdate, h, ih]

lemma rlLookup_rlUpdate_ne (st : RLState) (api api2 : String) (f : SvcState → SvcState)
    (h : api ≠ api2) :
    rlLookup (rlUpdate st api f) api2 = rlLookup st api2 := by
  induction st with
  | nil => rfl
  | cons kv rest ih =>
    obtain ⟨k, v⟩ := kv
    by_cases hk : k = api
    · subst hk
      simp [rlLookup, rlUpdate, h]
    · simp [rlLookup, rlUpdate, hk, ih]

lemma intelligent_none_state (api : String) (st : RLState) (g : SvcState)
    (h : rlLookup st api = some g) :
    (intelligent_rate_limit_handling none (some api) 1 1 1 st).2 =
      rlUpdate st api (fun s0 =>
        { s0 with rate_limit_hit := true,
                  backoff_time := min (g.backoff_time * 2) g.max_backoff }) := by
  simp [intelligent_rate_limit_handling, h]

lemma handle_hit_state (api : String) (j : ℚ) (st : RLState) (g : SvcState)
    (h : rlLookup st api = some g) :
    (handle_rate_limit_hit api j st).2 =
      rlUpdate st api (fun s0 =>
        { s0 with rate_limit_hit := true,
                  backoff_time := min (g.backoff_time * 2) g.max_backoff }) := by
  simp [handle_rate_limit_hit, h]

lemma iterHit_succ_out (api : String) (n : ℕ) (st : RLState) :
    iterHit api (n + 1) st =
      (intelligent_rate_limit_handling none (some api) 1 1 1 (iterHit api n st)).2 := by
  induction n generalizing st with
  | zero => rfl
  | succ n ih =>
    show iterHit api (n + 1) _ = _
    rw [ih]
    rfl

lemma iterHandle_succ_out (api : String) (n : ℕ) (st : RLState) :
    iterHandle api (n + 1) st = (handle_rate_limit_hit api 0 (iterHandle api n st)).2 := by
  induction n generalizing st with
  | zero => rfl
  | succ n ih =>
    show iterHandle api (n + 1) _ = _
    rw [ih]
    rfl

lemma iterHit_inv (api : String) (M : ℚ) (n : ℕ) (st : RLState) (g : SvcState)
    (h : rlLookup st api = some g) (hM : g.max_backoff = M) (hb : g.backoff_time ≤ M) :
    ∃ g2, rlLookup (iterHit api n st) api = some g2 ∧
      g2.max_backoff = M ∧ g2.backoff_time ≤ M := by
  induction n generalizing st g with
  | zero => exact ⟨g, h, hM, hb⟩
  | succ n ih =>
    have hl : rlLookup (intelligent_rate_limit_handling none (some api) 1 1 1 st).2 api =
        some { g with rate_limit_hit := true,
                      backoff_time := min (g.backoff_time * 2) g.max_backoff } := by
      rw [intelligent_none_state api st g h, rlLookup_rlUpdate_self, h]
      rfl
    exact ih _ _ hl (by simpa using hM) (by simp only [hM]; exact min_le_right _ _)

lemma iterHandle_inv (api : String) (M : ℚ) (n : ℕ) (st : RLState) (g : SvcState)
    (h : rlLookup st api = some g) (hM : g.max_backoff = M) (hb : g.backoff_time ≤ M) :
    ∃ g2, rlLookup (iterHandle api n st) api = some g2 ∧
      g2.max_backoff = M ∧ g2.backoff_time ≤ M := by
  induction n generalizing st g with
  | zero => exact ⟨g, h, hM, hb⟩
  | succ n ih =>
    have hl : rlLookup (handle_rate_limit_hit api 0 st).2 api =
        some { g with rate_limit_hit := true,
                      backoff_time := min (g.backoff_time * 2) g.max_backoff } := by
      rw [handle_hit_state api 0 st g h, rlLookup_rlUpdate_self, h]
      rfl
    exact ih _ _ hl (by simpa using hM) (by simp only [hM]; exact min_le_right _ _)

/-- C4: each `recordRateLimitHit` call without a retry-after value doubles the
stored backoff capped at the service maximum (via the min), so after any
number of consecutive hits the stored backoff never exceeds 30 s for
`gemini_api` and 15 s for `pexels_api`; the same holds via
`handle_rate_limit_hit`. -/
theorem c4_backoff_doubling_capped (n : ℕ) :
    (∃ g g2, rlLookup (iterHit "gemini_api" n initRLState) "gemini_api" = some g ∧
      rlLookup (iterHit "gemini_api" (n + 1) initRLState) "gemini_api" = some g2 ∧
      g2.backoff_time = min (g.backoff_time * 2) 30 ∧
      g.backoff_time ≤ 30 ∧ g2.backoff_time ≤ 30) ∧
    (∃ p p2, rlLookup (iterHit "pexels_api" n initRLState) "pexels_api" = some p ∧
      rlLookup (iterHit "pexels_api" (n + 1) initRLState) "pexels_api" = some p2 ∧
      p2.backoff_time = min (p.backoff_time * 2) 15 ∧
      p.backoff_time ≤ 15 ∧ p2.backoff_time ≤ 15) ∧
    (∃ g g2, rlLookup (iterHandle "gemini_api" n initRLState) "gemini_api" = some g ∧
      rlLookup (iterHandle "gemini_api" (n + 1) initRLState) "gemini_api" = some g2 ∧
      g2.backoff_time = min (g.backoff_time * 2) 30 ∧ g2.backoff_time ≤ 30) ∧
    (∃ p p2, rlLookup (iterHandle "pexels_api" n initRLState) "pexels_api" = some p ∧
      rlLookup (iterHandle "pexels_api" (n + 1) initRLState) "pexels_api" = some p2 ∧
      p2.backoff_time = min (p.backoff_time * 2) 15 ∧ p2.backoff_time ≤ 15) := by
  have hg0 : rlLookup initRLState "gemini_api" = some ⟨0, 1/2, 30, 0, false⟩ := by rfl
  have hp0 : rlLookup initRLState "pexels_api" = some ⟨0, 1/2, 15, 0, false⟩ := by rfl
  have h30 : (⟨0, 1/2, 30, 0, false⟩ : SvcState).backoff_time ≤ 30 := by norm_num
  have h15 : (⟨0, 1/2, 15, 0, false⟩ : SvcState).backoff_time ≤ 15 := by norm_num
  refine ⟨?_, ?_, ?_, ?_⟩
  · obtain ⟨g, hgl, hgM, hgb⟩ := iterHit_inv "gemini_api" 30 n initRLState _ hg0 rfl h30
    have hs : rlLookup (iterHit "gemini_api" (n + 1) initRLState) "gemini_api" =
        some { g with rate_limit_hit := true,
                      backoff_time := min (g.backoff_time * 2) 30 } := by
      rw [iterHit_succ_out, intelligent_none_state _ _ _ hgl, rlLookup_rlUpdate_self, hgl]
      simp [hgM]
    exact ⟨g, _, hgl, hs, rfl, hgb, min_le_right _ _⟩
  · obtain ⟨p, hpl, hpM, hpb⟩ := iterHit_inv "pexels_api" 15 n initRLState _ hp0 rfl h15
    have hs : rlLookup (iterHit "pexels_api" (n + 1) initRLState) "pexels_api" =
        some { p with rate_limit_hit := true,
                      backoff_time := min (p.backoff_time * 2) 15 } := by
      rw [iterHit_succ_out, intelligent_none_state _ _ _ hpl, rlLookup_rlUpdate_self, hpl]
      simp [hpM]
    exact ⟨p, _, hpl, hs, rfl, hpb, min_le_right _ _⟩
  · obtain ⟨g, hgl, hgM, hgb⟩ := iterHandle_inv "gemini_api" 30 n initRLState _ hg0 rfl h30
    have hs : rlLookup (iterHandle "gemini_api" (n + 1) initRLState) "gemini_api" =
        some { g with rate_limit_hit := true,
                      backoff_time := min (g.backoff_time * 2) 30 } := by
      rw [iterHandle_succ_out, handle_hit_state _ _ _ _ hgl, rlLookup_rlUpdate_self, hgl]
      simp [hgM]
    exact ⟨g, _, hgl, hs, rfl, min_le_right _ _⟩
  · obtain ⟨p, hpl, hpM, hpb⟩ := iterHandle_inv "pexels_api" 15 n initRLState _ hp0 rfl h15
    have hs : rlLookup (iterHandle "pexels_api" (n + 1) initRLState) "pexels_api" =
        some { p with rate_limit_hit := true,
                      backoff_time := min (p.backoff_time * 2) 15 } := by
      rw [iterHandle_succ_out, handle_hit_state _ _ _ _ hpl, rlLookup_rlUpdate_self, hpl]
      simp [hpM]
    exact ⟨p, _, hpl, hs, rfl, min_le_right _ _⟩

/-- C10: rate limiting applies only to the two preconfigured services: an
unknown service name has no entry in the initial table, `should_throttle_request`
answers `(false, 0)` without touching the table, and both rate-limit-hit
recorders leave the table unchanged (no per-service entry is ever created). -/
theorem c10_unknown_service_untouched (s : String)
    (hs1 : s ≠ "gemini_api") (hs2 : s ≠ "pexels_api") :
    rlLookup initRLState s = none ∧
    (∀ st now j, rlLookup st s = none →
      should_throttle_request s now j st = ((false, 0), st)) ∧
    (∀ st ra jN jR jE, rlLookup st s = none →
      (intelligent_rate_limit_handling ra (some s) jN jR jE st).2 = st) ∧
    (∀ st j, rlLookup st s = none →
      handle_rate_limit_hit s j st = (1, st)) := by
  refine ⟨?_, ?_, ?_, ?_⟩
  · simp [initRLState, rlLookup, Ne.symm hs1, Ne.symm hs2]
  · intro st now j h
    simp [should_throttle_request, h]
  · intro st ra jN jR jE h
    cases ra <;> simp [intelligent_rate_limit_handling, h]
  · intro st j h
    simp [handle_rate_limit_hit, h]

/-- C10 witness: the unknown service `bing_api` at the initial table. -/
theorem c10_unknown_service_untouched_witness :
    should_throttle_request "bing_api" 1000 (3/10) initRLState = ((false, 0), initRLState) ∧
    (intelligent_rate_limit_handling (some 7) (some "bing_api") 1 1 1 initRLState).2 =
      initRLState ∧
    handle_rate_limit_hit "bing_api" 0 initRLState = (1, initRLState) := by
  obtain ⟨h0, h1, h2, h3⟩ :=
    c10_unknown_service_untouched "bing_api" (by decide) (by decide)
  exact ⟨h1 initRLState 1000 (3/10) h0, h2 initRLState (some 7) 1 1 1 h0,
    h3 initRLState 0 h0⟩

/-- C3 counterexample: on a fresh table, `recordRateLimitHit("gemini_api",
retry_after=10)` (jitter draw 1, inside the documented bounds) followed
immediately by `should_throttle_request("gemini_api")` at wall time 1000
returns `(false, 0)` — not `(true, ≈10)` as claimed — because the recorder
never updates `last_request_time`, so the elapsed time computed by the check
(1000 − 0) already exceeds the stored 10 s backoff. -/
theorem c3_counterexample :
    (should_throttle_request "gemini_api" 1000 (3/10)
      (intelligent_rate_limit_handling (some 10) (some "gemini_api") 1 1 1 initRLState).2).1
      = (false, 0) := by
  simp only [should_throttle_request, intelligent_rate_limit_handling, initRLState, rlLookup,
    rlUpdate]
  norm_num

/-- C3 amended: `recordRateLimitHit("gemini_api", retry_after=10)` on the
fresh table sleeps `10·jitter ∈ [9,11]` and stores backoff 10 with the hit
flag set, but — because it does not update `last_request_time` — an
immediately following `should_throttle_request` at any wall time at least 10
(any realistic clock; the stored stamp is 0) returns `(false, 0)`; the check
returns `(true, 10 − elapsed)` only while the elapsed time since the stored
`last_request_time` is below the 10 s backoff. -/
theorem c3_amended_record_then_throttle (jRA now now2 : ℚ)
    (h1 : 9/10 ≤ jRA) (h2 : jRA ≤ 11/10) (hnow : 10 ≤ now)
    (_h2a : 0 ≤ now2) (h2b : now2 < 10) :
    9 ≤ (intelligent_rate_limit_handling (some 10) (some "gemini_api") 1 jRA 1 initRLState).1 ∧
    (intelligent_rate_limit_handling (some 10) (some "gemini_api") 1 jRA 1 initRLState).1 ≤ 11 ∧
    rlLookup (intelligent_rate_limit_handling (some 10) (some "gemini_api") 1 jRA 1 initRLState).2
      "gemini_api" = some ⟨0, 10, 30, 0, true⟩ ∧
    (should_throttle_request "gemini_api" now (3/10)
      (intelligent_rate_limit_handling (some 10) (some "gemini_api") 1 jRA 1 initRLState).2).1
      = (false, 0) ∧
    (should_throttle_request "gemini_api" now2 (3/10)
      (intelligent_rate_limit_handling (some 10) (some "gemini_api") 1 jRA 1 initRLState).2).1
      = (true, 10 - now2) := by
  have hsleep : (intelligent_rate_limit_handling (some 10) (some "gemini_api") 1 jRA 1
      initRLState).1 = 10 * jRA := by
    simp [intelligent_rate_limit_handling, initRLState, rlLookup]
  have hst : (intelligent_rate_limit_handling (some 10) (some "gemini_api") 1 jRA 1
      initRLState).2 =
      [("gemini_api", ⟨0, 10, 30, 0, true⟩), ("pexels_api", ⟨0, 1/2, 15, 0, false⟩)] := by
    simp [intelligent_rate_limit_handling, initRLState, rlLookup, rlUpdate]
    norm_num
  refine ⟨by rw [hsleep]; linarith, by rw [hsleep]; linarith, by rw [hst]; rfl, ?_, ?_⟩
  · have hC : ¬ (now < 10) := not_lt.2 hnow
    rw [hst]
    simp [should_throttle_request, rlLookup, hC]
  · rw [hst]
    simp [should_throttle_request, rlLookup, h2b]

/-- C3 amended, witness: jitter draw 1, throttle checks at wall times 1000
and 5. -/
theorem c3_amended_record_then_throttle_witness :
    9 ≤ (intelligent_rate_limit_handling (some 10) (some "gemini_api") 1 1 1 initRLState).1 ∧
    (intelligent_rate_limit_handling (some 10) (some "gemini_api") 1 1 1 initRLState).1 ≤ 11 ∧
    rlLookup (intelligent_rate_limit_handling (some 10) (some "gemini_api") 1 1 1 initRLState).2
      "gemini_api" = some ⟨0, 10, 30, 0, true⟩ ∧
    (should_throttle_request "gemini_api" 1000 (3/10)
      (intelligent_rate_limit_handling (some 10) (some "gemini_api") 1 1 1 initRLState).2).1
      = (false, 0) ∧
    (should_throttle_request "gemini_api" 5 (3/10)
      (intelligent_rate_limit_handling (some 10) (some "gemini_api") 1 1 1 initRLState).2).1
      = (true, 10 - 5) :=
  c3_amended_record_then_throttle 1 1000 5 (by norm_num) (by norm_num) (by norm_num)
    (by norm_num) (by norm_num)

/-- C7: `set(key, value)` then `get(key)` with the same category within the
freshness window returns the stored value; once the entry's mtime is older
than `max_age`, `get` returns absent. -/
theorem c7_cache_set_get {α : Type} (cm : CacheManager) (hash : String → String)
    (key : String) (v : α) (cat : Option String) (t t2 : ℚ) (fs : CacheStore α) :
    (t2 - t ≤ cm.max_age →
      cacheGet cm hash key cat t2 (cacheSet cm hash key v cat t fs).2 = some v) ∧
    (cm.max_age < t2 - t →
      cacheGet cm hash key cat t2 (cacheSet cm hash key v cat t fs).2 = none) := by
  constructor
  · intro h
    simp [cacheGet, cacheSet, CacheStore.update, not_lt.2 h]
  · intro h
    simp [cacheGet, cacheSet, CacheStore.update, h]

/-- C7 witness: the default manager, identity hash, key `"k"`, value 42,
category `"scripts"`, written at time 0, read back fresh at time 1 and stale
at time `86400·7 + 1`. -/
theorem c7_cache_set_get_witness :
    cacheGet defaultCacheManager id "k" (some "scripts") 1
      (cacheSet defaultCacheManager id "k" (42 : ℕ) (some "scripts") 0
        (fun _ => none)).2 = some 42 ∧
    cacheGet defaultCacheManager id "k" (some "scripts") (86400 * 7 + 1)
      (cacheSet defaultCacheManager id "k" (42 : ℕ) (some "scripts") 0
        (fun _ => none)).2 = none := by
  constructor
  · exact (c7_cache_set_get defaultCacheManager id "k" 42 (some "scripts") 0 1
      (fun _ => none)).1 (by norm_num [defaultCacheManager])
  · exact (c7_cache_set_get defaultCacheManager id "k" 42 (some "scripts") 0 (86400 * 7 + 1)
      (fun _ => none)).2 (by norm_num [defaultCacheManager])

/-- C8 counterexample: through the Claude adapter a first response of HTTP 400
is retried — the run issues a second request (sleeping `min(2^0,30)=1` s in
between) and returns the second response's content — contradicting "an HTTP
400 response is never retried: the call raises immediately on the first
400". -/
theorem c8_counterexample_claude_retries_400 :
    (generate_script_with_claude
      (fun n => if n = 0 then HResp.http 400 none 60 else HResp.http 200 (some "ok") 60)
      3 2).result = .ok "ok" ∧
    (generate_script_with_claude
      (fun n => if n = 0 then HResp.http 400 none 60 else HResp.http 200 (some "ok") 60)
      3 2).requests = 2 ∧
    (generate_script_with_claude
      (fun n => if n = 0 then HResp.http 400 none 60 else HResp.http 200 (some "ok") 60)
      3 2).sleeps = [1] := by
  refine ⟨?_, ?_, ?_⟩ <;> simp [generate_script_with_claude, claudeLoop]

/-- C8 amended: the Gemini adapter never retries an HTTP 400 — it raises after
exactly one request regardless of the retry budget — and retries a 429 with
exponential backoff (one `min(2^0,60)=1` s sleep before the second request);
the Claude adapter, by contrast, treats a 400 like any other non-429 error and
retries it with exponential backoff, succeeding on the second request. -/
theorem c8_amended_status_handling (resp : ℕ → HResp) (mr : ℕ) (jN : ℚ)
    (b : Option String) (ra : ℕ) (t : String) (ra2 : ℕ) :
    (1 ≤ mr → resp 0 = .http 400 b ra →
      generate_script_with_gemini resp mr = ⟨.error "api error 400", 1, []⟩) ∧
    (2 ≤ mr → resp 0 = .http 429 b ra → resp 1 = .http 200 (some t) ra2 →
      generate_script_with_gemini resp mr = ⟨.ok t, 2, [1]⟩) ∧
    (2 ≤ mr → resp 0 = .http 400 b ra → resp 1 = .http 200 (some t) ra2 →
      generate_script_with_claude resp mr jN = ⟨.ok t, 2, [1]⟩) := by
  refine ⟨?_, ?_, ?_⟩
  · intro hmr h0
    obtain ⟨k, rfl⟩ : ∃ k, mr = k + 1 := ⟨mr - 1, by omega⟩
    simp [generate_script_with_gemini, geminiLoop, h0]
  · intro hmr h0 h1
    obtain ⟨k, rfl⟩ : ∃ k, mr = k + 2 := ⟨mr - 2, by omega⟩
    show geminiLoop resp (k + 2) (k + 1 + 1) 0 [] = _
    rw [geminiLoop, h0]
    norm_num
    rw [geminiLoop, h1]
    norm_num
  · intro hmr h0 h1
    obtain ⟨k, rfl⟩ : ∃ k, mr = k + 2 := ⟨mr - 2, by omega⟩
    show claudeLoop resp (k + 2) jN (k + 1 + 1) 0 [] = _
    rw [claudeLoop, h0]
    simp only [show k + 2 - (k + 2) = 0 by omega, show k + 2 - 1 = k + 1 by omega]
    norm_num
    rw [claudeLoop, h1]
    norm_num

/-- C8 amended, witness: concrete response sequences with a retry budget of 3:
a first 400 (then 200) and a first 429 (then 200). -/
theorem c8_amended_status_handling_witness :
    generate_script_with_gemini
      (fun n => if n = 0 then HResp.http 400 none 0 else HResp.http 200 (some "ok") 0) 3 =
      ⟨.error "api error 400", 1, []⟩ ∧
    generate_script_with_gemini
      (fun n => if n = 0 then HResp.http 429 none 0 else HResp.http 200 (some "ok") 0) 3 =
      ⟨.ok "ok", 2, [1]⟩ ∧
    generate_script_with_claude
      (fun n => if n = 0 then HResp.http 400 none 0 else HResp.http 200 (some "ok") 0) 3 2 =
      ⟨.ok "ok", 2, [1]⟩ :=
  ⟨(c8_amended_status_handling
      (fun n => if n = 0 then HResp.http 400 none 0 else HResp.http 200 (some "ok") 0)
      3 2 none 0 "ok" 0).1 (by norm_num) rfl,
   (c8_amended_status_handling
      (fun n => if n = 0 then HResp.http 429 none 0 else HResp.http 200 (some "ok") 0)
      3 2 none 0 "ok" 0).2.1 (by norm_num) rfl rfl,
   (c8_amended_status_handling
      (fun n => if n = 0 then HResp.http 400 none 0 else HResp.http 200 (some "ok") 0)
      3 2 none 0 "ok" 0).2.2 (by norm_num) rfl rfl⟩

/-- C5: `_process_item` with a media service that always throws completes
without raising (it returns a boolean; with the audio task succeeding it even
returns `True`), and the segment's working directory ends up holding the
non-empty 1920×1080 fallback placeholder image, so the segment is never left
without a visual asset. -/
theorem c5_process_item_media_fallback (tempDir topic genre : String)
    (audioRes : Except Unit Unit) (item : TItem) (num : ℕ) (fs : FS) :
    (process_item tempDir topic genre audioRes (.error ()) item num fs).2
      (tempDir ++ "/" ++ toString num ++ "/fallback.jpg")
      = some (FileData.image 1920 1080 topic) ∧
    nonEmptyImage (FileData.image 1920 1080 topic) = true ∧
    (audioRes = .ok () →
      (process_item tempDir topic genre audioRes (.error ()) item num fs).1 = true) := by
  refine ⟨?_, rfl, ?_⟩
  · cases audioRes <;>
      simp [process_item, get_images, create_fallback_image, FS.write]
  · intro h
    subst h
    simp [process_item, get_images, create_fallback_image]

/-- C5 witness: a concrete segment (topic `"Dogs"`, item 3) on an empty
filesystem with succeeding audio. -/
theorem c5_process_item_media_fallback_witness :
    (process_item "tmp" "Dogs" "pets" (.ok ()) (.error ())
      ⟨J.js "Husky", J.jn 3, J.js "script", J.arr [J.js "husky dog"]⟩ 3 (fun _ => none)).2
      ("tmp" ++ "/" ++ toString 3 ++ "/fallback.jpg")
      = some (FileData.image 1920 1080 "Dogs") ∧
    nonEmptyImage (FileData.image 1920 1080 "Dogs") = true ∧
    ((process_item "tmp" "Dogs" "pets" (.ok ()) (.error ())
      ⟨J.js "Husky", J.jn 3, J.js "script", J.arr [J.js "husky dog"]⟩ 3 (fun _ => none)).1
      = true) := by
  obtain ⟨h1, h2, h3⟩ := c5_process_item_media_fallback "tmp" "Dogs" "pets" (.ok ())
    ⟨J.js "Husky", J.jn 3, J.js "script", J.arr [J.js "husky dog"]⟩ 3 (fun _ => none)
  exact ⟨h1, h2, h3 rfl⟩

lemma processItems_length (tempDir topic genre : String) (audioRes : ℕ → Except Unit Unit)
    (mediaRes : ℕ → Except Unit (List FileData)) :
    ∀ (l : List TItem) (num : ℕ) (fs : FS),
      (processItems tempDir topic genre audioRes mediaRes l num fs).1.length = l.length := by
  intro l
  induction l with
  | nil => intro num fs; rfl
  | cons it rest ih =>
    intro num fs
    simp [processItems, ih]

/-- C6: with ten items (twelve segments: intro, items 1–10, outro), any
assignment of media-fetch outcomes and succeeding audio, the orchestrator runs
every segment to a boolean completion (twelve per-segment results, no segment
failure propagates) and then invokes the assembly step exactly once; the run
succeeds whenever assembly does. -/
theorem c6_orchestrator_merges_once (topic genre tempDir : String) (c : Output)
    (hc : c.top10.length = 10)
    (audioRes : ℕ → Except Unit Unit) (mediaRes : ℕ → Except Unit (List FileData))
    (useVideo : Bool) (videoRes outroPick : Except Unit String)
    (mergeRes : Except Unit Unit) (fs : FS) :
    (generate_video topic genre tempDir (.ok c) audioRes mediaRes useVideo videoRes
      outroPick mergeRes fs).1.segs.length = 12 ∧
    (generate_video topic genre tempDir (.ok c) audioRes mediaRes useVideo videoRes
      outroPick mergeRes fs).1.mergeCalls = 1 ∧
    (mergeRes = .ok () →
      (generate_video topic genre tempDir (.ok c) audioRes mediaRes useVideo videoRes
        outroPick mergeRes fs).1.result = .ok "UnQTube_output.mp4") := by
  have hne : c.top10.isEmpty = false := by
    cases h : c.top10 with
    | nil => rw [h] at hc; simp at hc
    | cons a l => rfl
  cases mergeRes with
  | ok u =>
    refine ⟨?_, ?_, ?_⟩ <;>
      simp [generate_video, hne, merge_video, processItems_length, hc]
  | error e =>
    refine ⟨?_, ?_, ?_⟩
    · simp [generate_video, hne, merge_video, processItems_length, hc]
    · simp [generate_video, hne, merge_video]
    · intro h; cases h

/-- C6 witness: a concrete ten-item bundle where the intro and items 2, 5, 9
fail media fetch, audio succeeds everywhere, and assembly succeeds. -/
theorem c6_orchestrator_merges_once_witness :
    (generate_video "Dogs" "pets" "tmp"
      (.ok { title := "Dogs", genre := "pets", language := "english",
             intro_text := some "intro", conclusion := some (J.js "bye"),
             top10 := fallbackTop10 "Dogs", hooks := none, search_terms := none,
             full_script := none, research := none })
      (fun _ => .ok ()) (fun n => if n = 0 || n = 2 || n = 5 || n = 9 then .error () else .ok [])
      false (.error ()) (.error ()) (.ok ()) (fun _ => none)).1.segs.length = 12 ∧
    (generate_video "Dogs" "pets" "tmp"
      (.ok { title := "Dogs", genre := "pets", language := "english",
             intro_text := some "intro", conclusion := some (J.js "bye"),
             top10 := fallbackTop10 "Dogs", hooks := none, search_terms := none,
             full_script := none, research := none })
      (fun _ => .ok ()) (fun n => if n = 0 || n = 2 || n = 5 || n = 9 then .error () else .ok [])
      false (.error ()) (.error ()) (.ok ()) (fun _ => none)).1.mergeCalls = 1 ∧
    (generate_video "Dogs" "pets" "tmp"
      (.ok { title := "Dogs", genre := "pets", language := "english",
             intro_text := some "intro", conclusion := some (J.js "bye"),
             top10 := fallbackTop10 "Dogs", hooks := none, search_terms := none,
             full_script := none, research := none })
      (fun _ => .ok ()) (fun n => if n = 0 || n = 2 || n = 5 || n = 9 then .error () else .ok [])
      false (.error ()) (.error ()) (.ok ()) (fun _ => none)).1.result
      = .ok "UnQTube_output.mp4" := by
  obtain ⟨h1, h2, h3⟩ := c6_orchestrator_merges_once "Dogs" "pets" "tmp"
    { title := "Dogs", genre := "pets", language := "english",
      intro_text := some "intro", conclusion := some (J.js "bye"),
      top10 := fallbackTop10 "Dogs", hooks := none, search_terms := none,
      full_script := none, research := none }
    (by rfl)
    (fun _ => .ok ()) (fun n => if n = 0 || n = 2 || n = 5 || n = 9 then .error () else .ok [])
    false (.error ()) (.error ()) (.ok ()) (fun _ => none)
  exact ⟨h1, h2, h3 rfl⟩

/-- C9 counterexample: ten items all lacking search terms and a single
generated term.  The claim's even floor split would hand each item
`1 / 10 = 0` terms — no item would receive the term — but the compile step
uses `max(1, floor)` and hands the whole term to the first (top-ranked)
item. -/
theorem c9_counterexample_floor_split :
    ((compile_final_output "T" "g" "english"
        ⟨none, some (.ok tenLackingOutline), none, none,
         some (.ok (J.arr [J.js "t1"]))⟩).top10.map
      (fun it => it.search_terms)) = J.arr [J.js "t1"] :: List.replicate 9 (J.arr []) ∧
    (1 : ℕ) / 10 = 0 ∧
    ((distributeSpec ((1 : ℕ) / 10) [J.js "t1"]
        ((compile_final_output "T" "g" "english"
          ⟨none, some (.ok tenLackingOutline), none, none, none⟩).top10) 0).map
      (fun it => it.search_terms)) = List.replicate 10 (J.arr []) ∧
    J.arr [J.js "t1"] :: List.replicate 9 (J.arr []) ≠ List.replicate 10 (J.arr []) := by
  refine ⟨rfl, rfl, rfl, by simp [List.replicate_succ]⟩

lemma drop_min_length {α : Type} (n : ℕ) (l : List α) :
    l.drop (min n l.length) = l.drop n := by
  rcases le_or_lt n l.length with h | h
  · rw [min_eq_left h]
  · rw [min_eq_right h.le, List.drop_length, List.drop_eq_nil_of_le h.le]

lemma distribItems_eq_spec (tpi : ℕ) (terms : List J) :
    ∀ (l : List TItem) (k : ℕ),
      distribItems tpi terms l (min (k * tpi) terms.length) = distributeSpec tpi terms l k := by
  intro l
  induction l with
  | nil => intro k; rfl
  | cons it rest ih =>
    intro k
    have hmul : (k + 1) * tpi = k * tpi + tpi := by ring
    by_cases hf : J.falsy it.search_terms
    · have hlen : min (k * tpi) terms.length +
          ((terms.drop (k * tpi)).take tpi).length = min ((k + 1) * tpi) terms.length := by
        simp only [List.length_take, List.length_drop, hmul]
        generalize k * tpi = m
        omega
      simp [distribItems, distributeSpec, hf, drop_min_length, hlen, ih (k + 1)]
      have harg : k * tpi ⊓ terms.length + tpi ⊓ (terms.length - k * tpi) =
          (k + 1) * tpi ⊓ terms.length := by
        rw [hmul]
        generalize k * tpi = m
        omega
      rw [harg, ih (k + 1)]
    · have hf2 : J.falsy it.search_terms = false := by
        revert hf; cases J.falsy it.search_terms <;> simp
      simp [distribItems, distributeSpec, hf2, ih k]

/-- Every item in `l` carries an integer rank. -/
def AllIntRank (l : List TItem) : Prop := ∀ ti ∈ l, ∃ r : Int, ti.rank = J.jn r

lemma allIntRankB_iff (l : List TItem) : allIntRankB l = true ↔ AllIntRank l := by
  simp only [allIntRankB, List.all_eq_true, AllIntRank]
  constructor
  · intro h ti hm
    have := h ti hm
    cases hr : ti.rank <;> rw [hr] at this <;> simp at this ⊢
  · intro h ti hm
    obtain ⟨r, hr⟩ := h ti hm
    rw [hr]

lemma insDesc_spec (x : TItem) (rx : Int) (hx : x.rank = J.jn rx) :
    ∀ (l : List TItem), AllIntRank l →
      ∃ l2, insDesc x l = .ok l2 ∧ l2.Perm (x :: l) ∧ AllIntRank l2 ∧
        (RanksDesc l → RanksDesc l2) := by
  intro l
  induction l with
  | nil =>
    intro _
    refine ⟨[x], rfl, List.Perm.refl _, ?_, ?_⟩
    · intro ti hm
      rw [List.mem_singleton] at hm
      exact ⟨rx, hm ▸ hx⟩
    · intro _
      exact List.pairwise_singleton _ _
  | cons y ys ih =>
    intro hall
    obtain ⟨ry, hy⟩ := hall y (List.mem_cons_self _ _)
    have hys : AllIntRank ys := fun ti hm => hall ti (List.mem_cons_of_mem _ hm)
    by_cases hlt : ry < rx
    · refine ⟨x :: y :: ys, ?_, List.Perm.refl _, ?_, ?_⟩
      · simp [insDesc, hy, hx, J.pyLt, hlt, Except.bind]
        rfl
      · intro ti hm
        rcases List.mem_cons.1 hm with rfl | hm2
        · exact ⟨rx, hx⟩
        · exact hall ti hm2
      · intro hs
        refine List.Pairwise.cons ?_ hs
        intro z hz ra rb hra hrb
        rcases List.mem_cons.1 hz with rfl | hz2
        · rw [hx] at hra
          rw [hy] at hrb
          cases hra; cases hrb
          exact hlt.le
        · obtain ⟨rz, hrz⟩ := hys z hz2
          have hyz := (List.pairwise_cons.1 hs).1 z hz2
          have h1 : rz ≤ ry := hyz ry rz hy hrz
          rw [hx] at hra
          rw [hrb] at hrz
          cases hra; cases hrz
          exact h1.trans hlt.le
    · obtain ⟨l2, hl2, hperm, hint, hsort⟩ := ih hys
      refine ⟨y :: l2, ?_, ?_, ?_, ?_⟩
      · simp [insDesc, hy, hx, J.pyLt, hlt, hl2, Except.bind]
        rfl
      · exact (hperm.cons y).trans (List.Perm.swap x y ys)
      · intro ti hm
        rcases List.mem_cons.1 hm with rfl | hm2
        · exact ⟨ry, hy⟩
        · exact hint ti hm2
      · intro hs
        have hsys := (List.pairwise_cons.1 hs).2
        have hyall := (List.pairwise_cons.1 hs).1
        refine List.Pairwise.cons ?_ (hsort hsys)
        intro z hz ra rb hra hrb
        have hz2 : z ∈ x :: ys := hperm.mem_iff.1 hz
        rcases List.mem_cons.1 hz2 with rfl | hz3
        · rw [hy] at hra
          rw [hx] at hrb
          cases hra; cases hrb
          exact not_lt.1 hlt
        · exact hyall z hz3 ra rb hra hrb

lemma sortDescGo :
    ∀ (l acc : List TItem), AllIntRank acc → RanksDesc acc → AllIntRank l →
      ∃ l2, List.foldlM (fun a x => insDesc x a) acc l = .ok l2 ∧
        l2.Perm (acc ++ l) ∧ AllIntRank l2 ∧ RanksDesc l2 := by
  intro l
  induction l with
  | nil =>
    intro acc hi hs _
    exact ⟨acc, rfl, by simp, hi, hs⟩
  | cons x xs ih =>
    intro acc hi hs hall
    obtain ⟨rx, hx⟩ := hall x (List.mem_cons_self _ _)
    have hxs : AllIntRank xs := fun ti hm => hall ti (List.mem_cons_of_mem _ hm)
    obtain ⟨acc2, hacc2, hperm2, hint2, hsort2⟩ := insDesc_spec x rx hx acc hi
    obtain ⟨l2, hl2, hperm, hint, hsort⟩ := ih acc2 hint2 (hsort2 hs) hxs
    refine ⟨l2, ?_, ?_, hint, hsort⟩
    · rw [List.foldlM_cons, hacc2]
      exact hl2
    · exact hperm.trans ((hperm2.append_right xs).trans List.perm_middle.symm)

lemma sortDesc_spec (l : List TItem) (h : AllIntRank l) :
    ∃ l2, sortDesc l = .ok l2 ∧ l2.Perm l ∧ AllIntRank l2 ∧ RanksDesc l2 := by
  obtain ⟨l2, h1, h2, h3, h4⟩ :=
    sortDescGo l [] (by intro ti hm; cases hm) List.Pairwise.nil h
  exact ⟨l2, h1, by simpa using h2, h3, h4⟩

/-- C9 amended: when the stored outline re-parses to a dict with string
hook/thesis, a list of dict items with integer ranks, and the stored search
terms re-parse to a list, the compile step outputs exactly the stably
descending-rank-sorted items (a permutation of the extracted ones) with the
generated terms distributed per `distributeSpec`: consecutive blocks of
`terms_per_item = max(1, ⌊total/count⌋)` terms to the items lacking their own
search terms, in order, leaving items that already have terms untouched. -/
theorem c9_amended_compile_sort_distribute (topic genre lang : String)
    (res : ChainResults) (kvs : List (String × J)) (its terms : List J) (hs ts : String)
    (ho : res.outline = some (.ok (J.obj kvs)))
    (hhook : (J.lookup kvs "hook").getD (J.js "") = J.js hs)
    (hthesis : (J.lookup kvs "thesis").getD (J.js "") = J.js ts)
    (hitems : J.lookup kvs "items" = some (J.arr its))
    (hok : (extractTItems topic its).2 = true)
    (hint : allIntRankB (extractTItems topic its).1 = true)
    (hne : (extractTItems topic its).1 ≠ [])
    (hst : res.search_terms = some (.ok (J.arr terms))) :
    ∃ l, sortDesc (extractTItems topic its).1 = .ok l ∧
      RanksDesc l ∧ l.Perm (extractTItems topic its).1 ∧
      (compile_final_output topic genre lang res).top10 =
        distributeSpec (max 1 (terms.length / l.length)) terms l 0 := by
  obtain ⟨l, hsort, hperm, hintl, hdesc⟩ :=
    sortDesc_spec (extractTItems topic its).1 ((allIntRankB_iff _).1 hint)
  refine ⟨l, hsort, hdesc, hperm, ?_⟩
  have hlne : l.isEmpty = false := by
    cases hl : l with
    | nil =>
      rw [hl] at hperm
      exact absurd hperm.symm.eq_nil hne
    | cons a as => rfl
  have hE1 : (extractTItems topic its).1.isEmpty = false := by
    rcases h : (extractTItems topic its).1 with _ | ⟨a, as⟩
    · exact absurd h hne
    · rfl
  have hphase : compileOutlinePhase topic res.outline =
      (some (hs ++ " " ++ ts), some ((J.lookup kvs "conclusion").getD (J.js "")),
        l, false) := by
    simp only [compileOutlinePhase, ho, hhook, hthesis, hitems, hok, hE1, hsort,
      Bool.not_true, Bool.false_eq_true, if_false]
  have hmin0 : min (0 * max 1 (terms.length / l.length)) terms.length = 0 := by
    simp
  have hdistrib := distribItems_eq_spec (max 1 (terms.length / l.length)) terms l 0
  rw [hmin0] at hdistrib
  simp only [compile_final_output, hphase, hst, Bool.false_and, Bool.false_eq_true,
    if_false, hlne, Bool.not_false, if_true]
  exact hdistrib

/-- C9 amended, witness: the concrete ten-item outline with one generated
term. -/
theorem c9_amended_compile_sort_distribute_witness :
    ∃ l, sortDesc (extractTItems "T" ((oneToTen.reverse).map fun i =>
        J.obj [("rank", J.jn i), ("title", J.js ("I" ++ toString i)),
               ("description", J.js "d"), ("visuals", J.arr [])])).1 = .ok l ∧
      RanksDesc l ∧
      l.Perm (extractTItems "T" ((oneToTen.reverse).map fun i =>
        J.obj [("rank", J.jn i), ("title", J.js ("I" ++ toString i)),
               ("description", J.js "d"), ("visuals", J.arr [])])).1 ∧
      (compile_final_output "T" "g" "english"
        ⟨none, some (.ok tenLackingOutline), none, none,
         some (.ok (J.arr [J.js "t1"]))⟩).top10 =
        distributeSpec (max 1 ([J.js "t1"].length / l.length)) [J.js "t1"] l 0 :=
  c9_amended_compile_sort_distribute "T" "g" "english"
    ⟨none, some (.ok tenLackingOutline), none, none, some (.ok (J.arr [J.js "t1"]))⟩
    [("hook", J.js "H"), ("thesis", J.js "T"),
     ("items", J.arr ((oneToTen.reverse).map fun i =>
       J.obj [("rank", J.jn i), ("title", J.js ("I" ++ toString i)),
              ("description", J.js "d"), ("visuals", J.arr [])])),
     ("conclusion", J.js "C")]
    ((oneToTen.reverse).map fun i =>
      J.obj [("rank", J.jn i), ("title", J.js ("I" ++ toString i)),
             ("description", J.js "d"), ("visuals", J.arr [])])
    [J.js "t1"] "H" "T" rfl rfl rfl rfl rfl rfl (List.cons_ne_nil _ _) rfl

/-- C1 counterexample: a text-generation service that always returns the same
unparseable (non-JSON) eleven-line numbered list.  The heuristic extraction
fallback creates one item per numbered line and pads only *up to* ten — it
never truncates — so the compiled `top10` has eleven entries, not exactly
ten. -/
theorem c1_counterexample_eleven_items :
    (execute_chain
      (fun _ => .ok "1. a\n1. b\n1. c\n1. d\n1. e\n1. f\n1. g\n1. h\n1. i\n1. j\n1. k")
      (fun _ => none) "Dogs" "" "english").map (fun out => out.top10.length)
      = .ok 11 := by
  rfl

lemma outline_attempt_unparseable (jp : String → Option J) (s : String)
    (h : Unparseable jp s) : outline_attempt jp s = .extractFB := by
  obtain ⟨hb, hraw, hfix⟩ := h
  cases hbe : braceExtract s with
  | none => simp [outline_attempt, hbe, hraw, hfix]
  | some e => simp [outline_attempt, hbe, hb e hbe, hraw, hfix]

lemma padItems_length (topic : String) :
    ∀ (fuel : ℕ) (items : List ExtItem),
      min 10 (items.length + fuel) ≤ (padItems topic fuel items).length := by
  intro fuel
  induction fuel with
  | zero =>
    intro items
    simp [padItems]
  | succ f ih =>
    intro items
    by_cases h : items.length < 10
    · have h2 := ih (items ++
        [⟨(items.length + 1 : Int),
          "Example of " ++ topic ++ " #" ++ toString (items.length + 1),
          "This is an interesting example of " ++ topic ++ ".",
          [topic ++ " example", topic ++ " visual"]⟩])
      simp only [padItems, h, if_true]
      simp only [List.length_append, List.length_cons, List.length_nil] at h2
      refine le_trans ?_ h2
      omega
    · simp only [padItems, h, if_false]
      omega

lemma extractTItems_map (topic : String) :
    ∀ (l : List ExtItem),
      extractTItems topic (l.map extItemJ) =
        (l.map (fun it => ⟨J.js it.title, J.jn it.rank, J.js it.descr,
          J.arr (it.visuals.map J.js)⟩), true) := by
  intro l
  induction l with
  | nil => rfl
  | cons it rest ih =>
    simp [extItemJ, extractTItems, ih, J.lookup]

lemma distribItems_length (tpi : ℕ) (terms : List J) :
    ∀ (l : List TItem) (idx : ℕ), (distribItems tpi terms l idx).length = l.length := by
  intro l
  induction l with
  | nil => intro idx; rfl
  | cons it rest ih =>
    intro idx
    by_cases hf : J.falsy it.search_terms <;> simp [distribItems, hf, ih]

lemma compile_extract_length (topic genre lang s : String)
    (research detailed : Option String) (hooks terms : J) :
    10 ≤ (compile_final_output topic genre lang
      ⟨research, some (.ok (extract_outline_fallback topic s)), detailed,
       some (.ok hooks), some (.ok terms)⟩).top10.length := by
  set acc := (pyLines s).foldl (extLine topic)
    ⟨"Welcome to our video about " ++ topic,
     "Today we\x27re exploring the top 10 " ++ topic,
     "Thanks for watching our video about " ++ topic ++
       ". If you enjoyed this content, please like and subscribe!",
     [], none⟩ with hacc
  set items0 : List ExtItem := match acc.cur with
    | some it => acc.items ++ [it]
    | none => acc.items with hitems0
  set items := padItems topic 10 items0 with hitems
  have hx : extract_outline_fallback topic s =
      J.obj [("hook", J.js acc.hook), ("thesis", J.js acc.thesis),
             ("items", J.arr (items.map extItemJ)), ("conclusion", J.js acc.concl)] := by
    rw [extract_outline_fallback]
  have hext := extractTItems_map topic items
  set tis := items.map (fun it : ExtItem => (⟨J.js it.title, J.jn it.rank, J.js it.descr,
    J.arr (it.visuals.map J.js)⟩ : TItem)) with htis
  have hlen : 10 ≤ tis.length := by
    rw [htis, List.length_map]
    have := padItems_length topic 10 items0
    rw [← hitems] at this
    refine le_trans ?_ this
    omega
  have hall : AllIntRank tis := by
    intro ti hm
    rw [htis] at hm
    obtain ⟨it, _, rfl⟩ := List.mem_map.1 hm
    exact ⟨it.rank, rfl⟩
  obtain ⟨l, hsort, hperm, hintl, hdesc⟩ := sortDesc_spec tis hall
  have hlnel : 10 ≤ l.length := hperm.length_eq ▸ hlen
  have hEne : tis.isEmpty = false := by
    cases h : tis with
    | nil => rw [h] at hlen; simp at hlen
    | cons a as => rfl
  have hlne : l.isEmpty = false := by
    cases h : l with
    | nil => rw [h] at hlnel; simp at hlnel
    | cons a as => rfl
  have hphase : compileOutlinePhase topic
      (some (.ok (extract_outline_fallback topic s))) =
      (some (acc.hook ++ " " ++ acc.thesis), some (J.js acc.concl), l, false) := by
    rw [hx]
    simp [compileOutlinePhase, J.lookup, J.getD, hext, hEne, hsort]
  cases hterms : terms with
  | arr ts =>
    simp only [compile_final_output, hphase, Bool.false_and, Bool.false_eq_true, if_false,
      hlne, Bool.not_false, if_true, distribItems_length]
    exact hlnel
  | null =>
    simp only [compile_final_output, hphase]
    exact hlnel
  | jb b =>
    simp only [compile_final_output, hphase]
    exact hlnel
  | jn n =>
    simp only [compile_final_output, hphase]
    exact hlnel
  | js t =>
    simp only [compile_final_output, hphase]
    exact hlnel
  | obj kvs =>
    simp only [compile_final_output, hphase]
    exact hlnel

/-- C1 amended: for every topic, when the text-generation service always
returns unparseable (non-JSON) output, `execute_chain` still succeeds with the
heuristic extraction fallback supplying the items — but the extractor only
pads *up to* ten items and never truncates, so the compiled `top10` is
guaranteed to have at least ten entries, with exactly ten only when the
extractor finds at most ten numbered lines. -/
theorem c1_amended_fallback_at_least_ten (topic genre lang : String)
    (svc : ℕ → Except Unit String) (jp : String → Option J)
    (hsvc : ∀ n, ∃ s, svc n = .ok s ∧ Unparseable jp s) :
    ∃ out, execute_chain svc jp topic genre lang = .ok out ∧ 10 ≤ out.top10.length := by
  obtain ⟨s0, h0, u0⟩ := hsvc 0
  have hres : ∃ r i1, execute_research svc topic genre 0 = .ok (r, i1) := by
    by_cases hv : researchValid s0
    · exact ⟨s0, 1, by simp [execute_research, h0, hv]⟩
    · obtain ⟨s1, h1, _⟩ := hsvc 1
      by_cases hv1 : researchValid s1
      · exact ⟨s1, 2, by simp [execute_research, h0, hv, h1, hv1]⟩
      · exact ⟨research_fallback topic genre, 2, by
          simp [execute_research, h0, hv, h1, hv1]⟩
  obtain ⟨r, i1, hres⟩ := hres
  obtain ⟨sa, ha, ua⟩ := hsvc i1
  obtain ⟨sb, hb, ub⟩ := hsvc (i1 + 1)
  have hout : create_outline svc jp topic genre i1 =
      .ok (extract_outline_fallback topic sb, i1 + 2) := by
    simp [create_outline, ha, hb, outline_attempt_unparseable _ _ ua,
      outline_attempt_unparseable _ _ ub]
  simp only [execute_chain, hres, hout]
  exact ⟨_, rfl, compile_extract_length topic genre lang sb _ _ _ _⟩

/-- C1 amended, witness: the constant eleven-line service with a parser that
rejects everything it is shown. -/
theorem c1_amended_fallback_at_least_ten_witness :
    ∃ out, execute_chain
      (fun _ => .ok "1. a\n1. b\n1. c\n1. d\n1. e\n1. f\n1. g\n1. h\n1. i\n1. j\n1. k")
      (fun _ => none) "Dogs" "" "english" = .ok out ∧ 10 ≤ out.top10.length :=
  c1_amended_fallback_at_least_ten "Dogs" "" "english"
    (fun _ => .ok "1. a\n1. b\n1. c\n1. d\n1. e\n1. f\n1. g\n1. h\n1. i\n1. j\n1. k")
    (fun _ => none)
    (fun _ => ⟨"1. a\n1. b\n1. c\n1. d\n1. e\n1. f\n1. g\n1. h\n1. i\n1. j\n1. k", rfl,
      (fun e he => by
        rw [show braceExtract
          "1. a\n1. b\n1. c\n1. d\n1. e\n1. f\n1. g\n1. h\n1. i\n1. j\n1. k" = none
          from rfl] at he), rfl, rfl⟩)

/-- C2 counterexample: a text-generation service that always raises.  The
research step (step 1, not the outline step) re-raises on its final attempt,
and `execute_chain`'s salvage check finds no results at all, so the chain
raises — contradicting "for every step other than the outline step (research,
full script, hooks, search terms), if that step's generation fails the chain
substitutes fallback content and execute_chain returns normally". -/
theorem c2_counterexample_research_fatal :
    execute_chain (fun _ => .error ()) (fun _ => none) "Dogs" "" "english"
      = .error () := by
  rfl

lemma compile_search_terms_proj (topic genre lang : String) (res : ChainResults) (st : J)
    (h : res.search_terms = some (.ok st)) :
    (compile_final_output topic genre lang res).search_terms = some st := by
  cases st with
  | arr ts =>
    simp only [compile_final_output, h]
    split <;> (split <;> rfl)
  | null => simp only [compile_final_output, h]
  | jb b => simp only [compile_final_output, h]
  | jn n => simp only [compile_final_output, h]
  | js s => simp only [compile_final_output, h]
  | obj kvs => simp only [compile_final_output, h]

/-- C2 amended: only the research and outline steps can abort the chain.
Once research and outline have produced results, every later generation
failure (full script, hooks, search terms) degrades to its fallback content
and `execute_chain` returns normally; but a service raising on both research
attempts makes `execute_chain` raise (research failure is fatal too, contrary
to the claim), and so does a service raising on both outline attempts after a
valid research response. -/
theorem c2_amended_failure_semantics (topic genre lang : String)
    (jp : String → Option J) :
    (∀ (svc : ℕ → Except Unit String) (r : String) (i1 : ℕ) (o : J) (i2 : ℕ),
      execute_research svc topic genre 0 = .ok (r, i1) →
      create_outline svc jp topic genre i1 = .ok (o, i2) →
      (∀ n, i2 ≤ n → svc n = .error ()) →
      ∃ out, execute_chain svc jp topic genre lang = .ok out ∧
        out.full_script = some (fallback_script topic genre) ∧
        out.hooks = some (fallbackHooks topic genre) ∧
        out.search_terms = some (fallbackTerms topic 20)) ∧
    (∀ (svc : ℕ → Except Unit String), svc 0 = .error () → svc 1 = .error () →
      execute_chain svc jp topic genre lang = .error ()) ∧
    (∀ (svc : ℕ → Except Unit String) (s : String), svc 0 = .ok s →
      researchValid s = true → svc 1 = .error () → svc 2 = .error () →
      execute_chain svc jp topic genre lang = .error ()) := by
  refine ⟨?_, ?_, ?_⟩
  · intro svc r i1 o i2 hres hout herr
    have hsc : (develop_full_script svc (some o) topic genre i2).1 =
        fallback_script topic genre ∧
        i2 ≤ (develop_full_script svc (some o) topic genre i2).2 := by
      cases o with
      | obj kvs =>
        by_cases hit : iterItemsOk ((J.lookup kvs "items").getD (J.arr []))
        · simp [develop_full_script, hit, herr i2 (le_refl _)]
        · simp [develop_full_script, hit]
      | null => simp [develop_full_script]
      | jb b => simp [develop_full_script]
      | jn n => simp [develop_full_script]
      | js s => simp [develop_full_script]
      | arr l => simp [develop_full_script]
    have hhk : create_hooks svc jp topic genre
        (develop_full_script svc (some o) topic genre i2).2 =
        (fallbackHooks topic genre,
          (develop_full_script svc (some o) topic genre i2).2 + 1) := by
      simp [create_hooks, herr _ hsc.2]
    have hst : gen_search_terms svc jp topic
        ((develop_full_script svc (some o) topic genre i2).2 + 1) =
        (fallbackTerms topic 20,
          (develop_full_script svc (some o) topic genre i2).2 + 2) := by
      simp [gen_search_terms, herr _ (le_trans hsc.2 (Nat.le_succ _))]
    simp only [execute_chain, hres, hout, hhk, hst]
    refine ⟨_, rfl, ?_, ?_, ?_⟩
    · simp [compile_final_output, hsc.1]
    · simp [compile_final_output]
    · exact compile_search_terms_proj topic genre lang _ _ rfl
  · intro svc h0 h1
    simp [execute_chain, execute_research, h0, h1]
  · intro svc s h0 hv h1 h2
    simp [execute_chain, execute_research, create_outline, h0, hv, h1, h2]

set_option maxRecDepth 100000 in
/-- C2 amended, witness: a valid research response, a brace-wrapped outline
the parser accepts, and failures everywhere after (degradation); an
always-failing service (research fatal); and a service failing from the
outline step on (outline fatal). -/
theorem c2_amended_failure_semantics_witness :
    (∃ out, execute_chain
        (fun n => if n = 0 then .ok (String.mk (List.replicate 300 'a') ++ ":x")
          else if n = 1 then .ok "\x7bOUTLINE\x7d" else .error ())
        (fun t => if t = "\x7bOUTLINE\x7d" then some tenLackingOutline else none)
        "Dogs" "" "english" = .ok out ∧
      out.full_script = some (fallback_script "Dogs" "") ∧
      out.hooks = some (fallbackHooks "Dogs" "") ∧
      out.search_terms = some (fallbackTerms "Dogs" 20)) ∧
    execute_chain (fun _ => .error ())
      (fun t => if t = "\x7bOUTLINE\x7d" then some tenLackingOutline else none)
      "Dogs" "" "english" = .error () ∧
    execute_chain
      (fun n => if n = 0 then .ok (String.mk (List.replicate 300 'a') ++ ":x")
        else .error ())
      (fun t => if t = "\x7bOUTLINE\x7d" then some tenLackingOutline else none)
      "Dogs" "" "english" = .error () := by
  obtain ⟨hA, hB, hC⟩ := c2_amended_failure_semantics "Dogs" "" "english"
    (fun t => if t = "\x7bOUTLINE\x7d" then some tenLackingOutline else none)
  refine ⟨?_, hB _ rfl rfl, hC _ (String.mk (List.replicate 300 'a') ++ ":x") rfl rfl rfl rfl⟩
  refine hA _ (String.mk (List.replicate 300 'a') ++ ":x") 1 tenLackingOutline 2 rfl rfl ?_
  intro n hn
  have h0 : n ≠ 0 := by omega
  have h1 : n ≠ 1 := by omega
  simp [h0, h1]
